import Mathlib

/-! Verification development for mx51-weather-api.

A shallow embedding of

* `internal/weather/server.go` (the fallback aggregator `buildWeatherResponse`),
* `cmd/weather-api-standalone/internal/openweather/openweather.go` and
  `cmd/weather-api-standalone/internal/weatherstack/weatherstack.go`
  (the per-provider cache in front of the upstream fetch).

Conventions of the embedding.

* A `time.Time` is an instant, counted in nanoseconds since the Unix epoch; a
  `time.Duration` is an integer number of nanoseconds. A Go `time.Time` keeps
  its seconds, counted from January 1 of year 1, in an `int64`: `Time.Add`
  saturates there.
* A `timestamppb.Timestamp` is the count `Seconds * 10^9 + Nanos`. `AsTime`
  adds `unixToInternal` to the seconds in `int64` arithmetic, so the
  conversion wraps for a timestamp far outside the valid range, and the code
  compares timestamps only after this conversion.
* `float64` fields are rationals. The embedded code only copies them.
* A Go pointer that may be nil is an `Option`.
* A Go `error` is an `Option Error`, `none` being nil.
* Calls made to a collaborator are recorded in an explicit list, in call order.
-/

/-- Instants and durations, in nanoseconds. -/
abbrev Time := Int

/-- Method `time.Time.Before`. -/
def Time.Before (t u : Time) : Bool := decide (t < u)

/-- Method `time.Time.After`. -/
def Time.After (t u : Time) : Bool := decide (t > u)

/-- The largest `int64`. -/
def maxInt64 : Int := 9223372036854775807

/-- The smallest `int64`. -/
def minInt64 : Int := -9223372036854775808

/-- The value of an integer expression computed in `int64`: reduced modulo
`2^64` into the range from `minInt64` to `maxInt64`. -/
def wrapInt64 (n : Int) : Int :=
  (n + 9223372036854775808) % 18446744073709551616 - 9223372036854775808

/-- Constant `unixToInternal` of package `time`: the seconds from January 1 of
year 1 to the Unix epoch. A `time.Time` stores its seconds counted from
year 1. -/
def unixToInternal : Int := 62135596800

/-- Method `time.Time.Add`, on a duration `d`: the exact sum, unless its seconds
counted from year 1 leave the `int64` range; then `addSec` saturates the
seconds at `maxInt64` or `-maxInt64` and the nanoseconds within the second are
those of the sum. -/
def Time.Add (t : Time) (d : Int) : Time :=
  let sum := t + d
  let sec := sum / 1000000000 + unixToInternal
  if sec > maxInt64 then (maxInt64 - unixToInternal) * 1000000000 + sum % 1000000000
  else if sec < minInt64 then (-maxInt64 - unixToInternal) * 1000000000 + sum % 1000000000
  else sum

/-- Message `timestamppb.Timestamp`, as the count `Seconds * 10^9 + Nanos` of
nanoseconds since the Unix epoch. -/
abbrev Timestamp := Int

/-- Field `Seconds` of a timestamp, for `Nanos` between 0 and 999999999. -/
def Timestamp.Seconds (ts : Int) : Int := ts / 1000000000

/-- Field `Nanos` of a timestamp, between 0 and 999999999. -/
def Timestamp.Nanos (ts : Int) : Int := ts % 1000000000

/-- Method `(*timestamppb.Timestamp).IsValid`: the timestamp is a date from
0001-01-01T00:00:00Z to 9999-12-31T23:59:59.999999999Z, that is `Seconds` from
-62135596800 to 253402300799. -/
@[reducible] def Timestamp.IsValid (ts : Int) : Prop :=
  -62135596800000000000 ≤ ts ∧ ts ≤ 253402300799999999999

/-- Function `time.Unix(sec, nsec)` for `nsec` between 0 and 999999999: the time
whose seconds from year 1 are `sec + unixToInternal`, computed in `int64`. -/
def timeUnix (sec nsec : Int) : Time :=
  (wrapInt64 (sec + unixToInternal) - unixToInternal) * 1000000000 + nsec

/-- Method `(*timestamppb.Timestamp).AsTime`, that is
`time.Unix(x.GetSeconds(), x.GetNanos())`: a nil timestamp reads as the epoch;
seconds above 9223371974719179007 wrap to a time in the far past. -/
def AsTime (ts : Option Timestamp) : Time :=
  match ts with
  | some t => timeUnix (Timestamp.Seconds t) (Timestamp.Nanos t)
  | none => timeUnix 0 0

namespace codes

/-- Code `codes.Canceled` of gRPC. -/
def Canceled : Nat := 1
/-- Code `codes.Unknown` of gRPC. -/
def Unknown : Nat := 2
/-- Code `codes.InvalidArgument` of gRPC. -/
def InvalidArgument : Nat := 3
/-- Code `codes.DeadlineExceeded` of gRPC. -/
def DeadlineExceeded : Nat := 4
/-- Code `codes.Unavailable` of gRPC. -/
def Unavailable : Nat := 14

end codes

/-- Go `error` values that the embedded code builds or hands on: a gRPC status
error (`status.Error(code, message)`) or a plain error (`errors.New`,
`fmt.Errorf`, or any error of a collaborator). -/
inductive Error where
  | status (code : Nat) (message : String)
  | plain (message : String)
  deriving DecidableEq, Repr

/-- Message `google.type.LatLng`. -/
structure LatLng where
  Latitude : Rat
  Longitude : Rat
  deriving DecidableEq, Repr

/-- Message `mx51.weather.type.Location`. -/
structure Location where
  Name : String
  Position : Option LatLng
  deriving DecidableEq, Repr

namespace openweather

/-- Message `openweather.GetWeatherRequest`. -/
structure GetWeatherRequest where
  Query : String
  MinReadTime : Option Timestamp := none
  deriving DecidableEq, Repr

/-- Message `openweather.Weather`. -/
structure Weather where
  ReadTime : Option Timestamp
  Location : Option Location := none
  Temp : Rat
  WindSpeed : Rat
  deriving DecidableEq, Repr

/-- Getter `(*Weather).GetReadTime`, nil-safe. -/
def GetReadTime (x : Option Weather) : Option Timestamp :=
  match x with
  | some w => w.ReadTime
  | none => none

/-- Getter `(*Weather).GetTemp`, nil-safe. -/
def GetTemp (x : Option Weather) : Rat :=
  match x with
  | some w => w.Temp
  | none => 0

/-- Getter `(*Weather).GetWindSpeed`, nil-safe. -/
def GetWindSpeed (x : Option Weather) : Rat :=
  match x with
  | some w => w.WindSpeed
  | none => 0

/-- What a call of `OpenweatherClient.GetWeather` returns: `(res, err)`. -/
structure Reply where
  res : Option Weather
  err : Option Error
  deriving DecidableEq, Repr

end openweather

namespace weatherstack

/-- Message `weatherstack.GetCurrentWeatherRequest`. -/
structure GetCurrentWeatherRequest where
  Query : String
  MinReadTime : Option Timestamp := none
  deriving DecidableEq, Repr

/-- Message `weatherstack.CurrentWeather`. -/
structure CurrentWeather where
  ReadTime : Option Timestamp
  Location : Option Location := none
  Temperature : Rat
  WindSpeed : Rat
  deriving DecidableEq, Repr

/-- Getter `(*CurrentWeather).GetReadTime`, nil-safe. -/
def GetReadTime (x : Option CurrentWeather) : Option Timestamp :=
  match x with
  | some w => w.ReadTime
  | none => none

/-- Getter `(*CurrentWeather).GetTemperature`, nil-safe. -/
def GetTemperature (x : Option CurrentWeather) : Rat :=
  match x with
  | some w => w.Temperature
  | none => 0

/-- Getter `(*CurrentWeather).GetWindSpeed`, nil-safe. -/
def GetWindSpeed (x : Option CurrentWeather) : Rat :=
  match x with
  | some w => w.WindSpeed
  | none => 0

/-- What a call of `WeatherstackClient.GetCurrentWeather` returns: `(res, err)`. -/
structure Reply where
  res : Option CurrentWeather
  err : Option Error
  deriving DecidableEq, Repr

end weatherstack

namespace weather

/-- Struct `Server` of `internal/weather/server.go`. `TimeNow` is read once per
request, and each client is called at most once per request, so a client is
the function giving its reply to a request. -/
structure Server where
  MaxAge : Int
  TimeNow : Unit → Time
  Openweather : openweather.GetWeatherRequest → openweather.Reply
  Weatherstack : weatherstack.GetCurrentWeatherRequest → weatherstack.Reply

/-- Struct `weatherResponse`. -/
structure weatherResponse where
  WindSpeed : Rat
  TemperatureDegrees : Rat
  deriving DecidableEq, Repr

/-- Variable `errMissingReadTime`. -/
def errMissingReadTime : Error := Error.plain "missing read time"

/-- Method `(*weatherResponse).fromOpenweather`, on a fresh `weatherResponse`. -/
def fromOpenweather (res : Option openweather.Weather) : weatherResponse :=
  { WindSpeed := openweather.GetWindSpeed res
    TemperatureDegrees := openweather.GetTemp res }

/-- Method `(*weatherResponse).fromWeatherstack`, on a fresh `weatherResponse`. -/
def fromWeatherstack (res : Option weatherstack.CurrentWeather) : weatherResponse :=
  { WindSpeed := weatherstack.GetWindSpeed res
    TemperatureDegrees := weatherstack.GetTemperature res }

/-- A provider call made by `buildWeatherResponse`, with the request it carried. -/
inductive Call where
  | openweather (req : openweather.GetWeatherRequest)
  | weatherstack (req : weatherstack.GetCurrentWeatherRequest)
  deriving DecidableEq, Repr

/-- How `buildWeatherResponse` ends: the `panic(x.MaxAge)`, a response with a
nil error, or a nil response with an error. -/
inductive Outcome where
  | panicked (maxAge : Int)
  | ok (res : weatherResponse)
  | error (err : Error)
  deriving DecidableEq, Repr

/-- The provider calls made, in order, and the outcome. -/
structure Run where
  calls : List Call
  out : Outcome
  deriving DecidableEq, Repr

/-- The `if xErr == nil { ... }` block that follows each provider call
(server.go lines 85-91 and 94-100): either the function returns at once with
this reading (`fresh`), or it goes on with the error variable set to `err`. -/
inductive Checked where
  | fresh
  | carry (err : Option Error)
  deriving DecidableEq, Repr

/-- The block itself, on the provider's error, the reading's `GetReadTime()`
and `minReadTime`: the read time is compared after `AsTime()`. -/
def checkReadTime (err : Option Error) (readTime : Option Timestamp) (minReadTime : Time) :
    Checked :=
  match err with
  | some e => Checked.carry (some e)
  | none =>
    match readTime with
    | none => Checked.carry (some errMissingReadTime)
    | some t =>
      if !(Time.Before (AsTime (some t)) minReadTime) then Checked.fresh else Checked.carry none

/-- The final `switch` of `buildWeatherResponse` (server.go lines 103-116). -/
def fallback (owRes : Option openweather.Weather) (owErr : Option Error)
    (wsRes : Option weatherstack.CurrentWeather) (wsErr : Option Error) : Outcome :=
  match owErr, wsErr with
  | none, none =>
    if Time.After (AsTime (weatherstack.GetReadTime wsRes)) (AsTime (openweather.GetReadTime owRes)) then
      Outcome.ok (fromWeatherstack wsRes)
    else
      Outcome.ok (fromOpenweather owRes)
  | none, some _ => Outcome.ok (fromOpenweather owRes)
  | some _, none => Outcome.ok (fromWeatherstack wsRes)
  | some _, some _ => Outcome.error (Error.status codes.Unavailable "no weather providers available")

/-- Method `(*Server).buildWeatherResponse`. The context, its three-minute
timeout and its cancellation reach the code only through what the clients
reply. -/
def buildWeatherResponse (x : Server) (query : String) : Run :=
  if x.MaxAge ≤ 0 then
    { calls := [], out := Outcome.panicked x.MaxAge }
  else
    let minReadTime := Time.Add (x.TimeNow ()) (-x.MaxAge)
    let owReq : openweather.GetWeatherRequest := { Query := query }
    let ow := x.Openweather owReq
    match checkReadTime ow.err (openweather.GetReadTime ow.res) minReadTime with
    | Checked.fresh =>
      { calls := [Call.openweather owReq], out := Outcome.ok (fromOpenweather ow.res) }
    | Checked.carry owErr =>
      let wsReq : weatherstack.GetCurrentWeatherRequest := { Query := query }
      let ws := x.Weatherstack wsReq
      match checkReadTime ws.err (weatherstack.GetReadTime ws.res) minReadTime with
      | Checked.fresh =>
        { calls := [Call.openweather owReq, Call.weatherstack wsReq]
          out := Outcome.ok (fromWeatherstack ws.res) }
      | Checked.carry wsErr =>
        { calls := [Call.openweather owReq, Call.weatherstack wsReq]
          out := fallback ow.res owErr ws.res wsErr }

end weather

/-- The error `ctx.Err()` of a finished context: `context.Canceled` or
`context.DeadlineExceeded`. -/
inductive CtxErr where
  | Canceled
  | DeadlineExceeded
  deriving DecidableEq, Repr

/-- Function `status.FromContextError(err).Err()` on the error of a finished
context. -/
def FromContextError (e : CtxErr) : Error :=
  match e with
  | CtxErr.Canceled => Error.status codes.Canceled "context canceled"
  | CtxErr.DeadlineExceeded => Error.status codes.DeadlineExceeded "context deadline exceeded"

namespace owapi

/-- The decoded body of the upstream response: `main.temp` and `wind.speed`,
each a `*float64`. -/
structure Body where
  Temp : Option Rat
  Speed : Option Rat
  deriving DecidableEq, Repr

/-- The upstream HTTP response as far as `getWeather` reads it: the status
code and what `json.NewDecoder(res.Body).Decode(&body)` gives. -/
structure Response where
  StatusCode : Nat
  Decode : Except Error Body

/-- What surrounds one run of the slow path of `GetWeather`: the value of
`time.Now()` when the fetch starts, `url.QueryEscape`, `http.DefaultClient.Do`
as a function of the request URL, and whether the caller's context is done
before the result arrives (the branch that `select` takes). -/
structure World where
  Now : Time
  QueryEscape : String → String
  Do : String → Except Error Response
  ctxDone : Option CtxErr

/-- Struct `cacheKey`. -/
structure cacheKey where
  query : String
  deriving DecidableEq, Repr

/-- Type alias `cacheValue`. -/
abbrev cacheValue := openweather.Weather

/-- Struct `Server`: the API key and the cache map. A nil map and an empty map
read alike; `excl` and `mu` order concurrent callers and have no state of their
own in a sequential run. -/
structure Server where
  APIKey : String
  cache : cacheKey → Option cacheValue

/-- Function `newCacheKey`. -/
def newCacheKey (req : openweather.GetWeatherRequest) : cacheKey :=
  { query := req.Query }

/-- Method `(*Server).getWeather`: one upstream round trip. `http.NewRequest`
does not fail on a GET of this URL; `timestamppb.New` keeps the count of
nanoseconds of the clock value. -/
def getWeather (x : Server) (w : World) (request : openweather.GetWeatherRequest) :
    Except Error openweather.Weather :=
  let url := "https://api.openweathermap.org/data/2.5/weather?units=metric&appid="
    ++ w.QueryEscape x.APIKey ++ "&q=" ++ w.QueryEscape request.Query
  let readTime := w.Now
  match w.Do url with
  | Except.error err => Except.error err
  | Except.ok res =>
    if res.StatusCode ≠ 200 then
      Except.error (Error.plain ("unexpected status code " ++ toString res.StatusCode))
    else
      match res.Decode with
      | Except.error err => Except.error err
      | Except.ok body =>
        match body.Temp with
        | none => Except.error (Error.plain "missing \"main.temp\"")
        | some temp =>
          match body.Speed with
          | none => Except.error (Error.plain "missing \"wind.speed\"")
          | some speed =>
            Except.ok { ReadTime := some readTime, Temp := temp, WindSpeed := speed }

/-- The callback given to `bigbuff.ExclusiveValue` (openweather.go lines 73-94):
fetch, and on success store the reading under `key`. -/
def exclusiveValue (x : Server) (w : World) (key : cacheKey)
    (req : openweather.GetWeatherRequest) : Server × Except Error openweather.Weather :=
  match getWeather x w req with
  | Except.ok res => ({ x with cache := Function.update x.cache key (some res) }, Except.ok res)
  | Except.error err => (x, Except.error err)

/-- The fast path test of `GetWeather` (openweather.go lines 50-52); both
timestamps are compared after `AsTime()`. -/
def fastPath (x : Server) (req : openweather.GetWeatherRequest) : Option openweather.Weather :=
  match x.cache (newCacheKey req) with
  | none => none
  | some res =>
    match req.MinReadTime with
    | none => some res
    | some minReadTime =>
      match res.ReadTime with
      | none => none
      | some t =>
        if !(Time.Before (AsTime (some t)) (AsTime (some minReadTime))) then some res else none

/-- One call of `GetWeather`: the server afterwards, the requests handed to the
upstream fetch `getWeather`, and the `(res, err)` returned. -/
structure Run where
  server : Server
  fetches : List openweather.GetWeatherRequest
  out : Except Error openweather.Weather

/-- Method `(*Server).GetWeather`, for one caller at a time: the call that
`x.excl.CallWithOptions` schedules runs the callback once, after its waits. -/
def GetWeather (x : Server) (w : World) (req : openweather.GetWeatherRequest) : Run :=
  let key := newCacheKey req
  match fastPath x req with
  | some res => { server := x, fetches := [], out := Except.ok res }
  | none =>
    let v := exclusiveValue x w key req
    match w.ctxDone with
    | some e => { server := v.1, fetches := [req], out := Except.error (FromContextError e) }
    | none => { server := v.1, fetches := [req], out := v.2 }

end owapi

namespace wsapi

/-- The decoded body of the upstream response: `current.temperature` and
`current.wind_speed`, each a `*float64`. -/
structure Body where
  Temperature : Option Rat
  WindSpeed : Option Rat
  deriving DecidableEq, Repr

/-- The upstream HTTP response as far as `getCurrentWeather` reads it. -/
structure Response where
  StatusCode : Nat
  Decode : Except Error Body

/-- What surrounds one run of the slow path of `GetCurrentWeather`; see
`owapi.World`. -/
structure World where
  Now : Time
  QueryEscape : String → String
  Do : String → Except Error Response
  ctxDone : Option CtxErr

/-- Struct `cacheKey`. -/
structure cacheKey where
  query : String
  deriving DecidableEq, Repr

/-- Type alias `cacheValue`. -/
abbrev cacheValue := weatherstack.CurrentWeather

/-- Struct `Server`: the API key and the cache map. -/
structure Server where
  APIKey : String
  cache : cacheKey → Option cacheValue

/-- Function `newCacheKey`. -/
def newCacheKey (req : weatherstack.GetCurrentWeatherRequest) : cacheKey :=
  { query := req.Query }

/-- Method `(*Server).getCurrentWeather`: one upstream round trip. -/
def getCurrentWeather (x : Server) (w : World) (request : weatherstack.GetCurrentWeatherRequest) :
    Except Error weatherstack.CurrentWeather :=
  let url := "http://api.weatherstack.com/current?units=m&access_key="
    ++ w.QueryEscape x.APIKey ++ "&query=" ++ w.QueryEscape request.Query
  let readTime := w.Now
  match w.Do url with
  | Except.error err => Except.error err
  | Except.ok res =>
    if res.StatusCode ≠ 200 then
      Except.error (Error.plain ("unexpected status code " ++ toString res.StatusCode))
    else
      match res.Decode with
      | Except.error err => Except.error err
      | Except.ok body =>
        match body.Temperature with
        | none => Except.error (Error.plain "missing \"current.temperature\"")
        | some temperature =>
          match body.WindSpeed with
          | none => Except.error (Error.plain "missing \"current.wind_speed\"")
          | some windSpeed =>
            Except.ok { ReadTime := some readTime, Temperature := temperature, WindSpeed := windSpeed }

/-- The callback given to `bigbuff.ExclusiveValue` (weatherstack.go lines 73-94). -/
def exclusiveValue (x : Server) (w : World) (key : cacheKey)
    (req : weatherstack.GetCurrentWeatherRequest) :
    Server × Except Error weatherstack.CurrentWeather :=
  match getCurrentWeather x w req with
  | Except.ok res => ({ x with cache := Function.update x.cache key (some res) }, Except.ok res)
  | Except.error err => (x, Except.error err)

/-- The fast path test of `GetCurrentWeather` (weatherstack.go lines 50-52);
both timestamps are compared after `AsTime()`. -/
def fastPath (x : Server) (req : weatherstack.GetCurrentWeatherRequest) :
    Option weatherstack.CurrentWeather :=
  match x.cache (newCacheKey req) with
  | none => none
  | some res =>
    match req.MinReadTime with
    | none => some res
    | some minReadTime =>
      match res.ReadTime with
      | none => none
      | some t =>
        if !(Time.Before (AsTime (some t)) (AsTime (some minReadTime))) then some res else none

/-- One call of `GetCurrentWeather`: the server afterwards, the requests handed
to the upstream fetch, and the `(res, err)` returned. -/
structure Run where
  server : Server
  fetches : List weatherstack.GetCurrentWeatherRequest
  out : Except Error weatherstack.CurrentWeather

/-- Method `(*Server).GetCurrentWeather`, for one caller at a time. -/
def GetCurrentWeather (x : Server) (w : World) (req : weatherstack.GetCurrentWeatherRequest) :
    Run :=
  let key := newCacheKey req
  match fastPath x req with
  | some res => { server := x, fetches := [], out := Except.ok res }
  | none =>
    let v := exclusiveValue x w key req
    match w.ctxDone with
    | some e => { server := v.1, fetches := [req], out := Except.error (FromContextError e) }
    | none => { server := v.1, fetches := [req], out := v.2 }

end wsapi

/-! ## Inputs of `server_test.go` -/

namespace weather

/-- An Openweather reply with a reading and a nil error. -/
def owOk (res : openweather.Weather) : openweather.Reply := { res := some res, err := none }

/-- An Openweather reply with a nil reading and an error. -/
def owFail (msg : String) : openweather.Reply := { res := none, err := some (Error.plain msg) }

/-- A Weatherstack reply with a reading and a nil error. -/
def wsOk (res : weatherstack.CurrentWeather) : weatherstack.Reply := { res := some res, err := none }

/-- A Weatherstack reply with a nil reading and an error. -/
def wsFail (msg : String) : weatherstack.Reply := { res := none, err := some (Error.plain msg) }

/-- The server of the test harness: `MaxAge` of three seconds, the clock set to
`time.Unix(0, 0)`, and clients replying as given. -/
def testServer (ow : openweather.Reply) (ws : weatherstack.Reply) : Server :=
  { MaxAge := 3000000000
    TimeNow := fun _ => 0
    Openweather := fun _ => ow
    Weatherstack := fun _ => ws }

/-- Variable `sydLocation` of the tests. -/
def sydLocation : Location :=
  { Name := "Sydney", Position := some { Latitude := -338688 / 10000, Longitude := 1512093 / 10000 } }

/-- The Openweather reading of `openweather success`: read at 25ms. -/
def owSuccess : openweather.Weather :=
  { ReadTime := some 25000000, Location := some sydLocation, Temp := 29, WindSpeed := 20 }

/-- The Openweather reading of `openweather cached`: read at -2s. -/
def owCached : openweather.Weather :=
  { ReadTime := some (-2000000000), Temp := 23, WindSpeed := 15 }

/-- The Openweather reading of `both expired same read time`: read at -(3min+1ns). -/
def owExpired : openweather.Weather :=
  { ReadTime := some (-180000000001), Location := some sydLocation, Temp := 33, WindSpeed := 3 }

/-- The Openweather reading of `both expired weatherstack earlier`: read at -(3min+2ns). -/
def owExpired2 : openweather.Weather :=
  { ReadTime := some (-180000000002), Location := some sydLocation, Temp := 33, WindSpeed := 3 }

/-- The Weatherstack reading of `openweather expired weatherstack success`: read at 25ms. -/
def wsSuccess : weatherstack.CurrentWeather :=
  { ReadTime := some 25000000, Location := some sydLocation, Temperature := 29, WindSpeed := 20 }

/-- The Weatherstack reading of `both expired same read time`: read at -(3min+1ns). -/
def wsExpired : weatherstack.CurrentWeather :=
  { ReadTime := some (-180000000001), Location := some sydLocation, Temperature := 29, WindSpeed := 20 }

end weather

/-! ## Inputs for the provider caches -/

namespace owapi

/-- A cache holding `res` under the query `"sydney"` and nothing else. -/
def sydneyCache (res : openweather.Weather) : cacheKey → Option cacheValue :=
  fun k => if k.query = "sydney" then some res else none

/-- A server whose cache holds, for `"sydney"`, a reading read at time 100. -/
def cachedServer : Server :=
  { APIKey := "key", cache := sydneyCache { ReadTime := some 100, Temp := 21, WindSpeed := 4 } }

/-- A server with an empty cache. -/
def emptyServer : Server :=
  { APIKey := "key", cache := fun _ => none }

/-- An upstream that answers 200 with `main.temp` 18 and `wind.speed` 5; the
fetch starts at time `now`; the caller's context stays open. -/
def okWorld (now : Time) : World :=
  { Now := now
    QueryEscape := fun s => s
    Do := fun _ => Except.ok { StatusCode := 200, Decode := Except.ok { Temp := some 18, Speed := some 5 } }
    ctxDone := none }

/-- An upstream that answers 500; the caller's context stays open. -/
def failWorld (now : Time) : World :=
  { Now := now
    QueryEscape := fun s => s
    Do := fun _ => Except.ok { StatusCode := 500, Decode := Except.error (Error.plain "EOF") }
    ctxDone := none }

end owapi

namespace wsapi

/-- A cache holding `res` under the query `"sydney"` and nothing else. -/
def sydneyCache (res : weatherstack.CurrentWeather) : cacheKey → Option cacheValue :=
  fun k => if k.query = "sydney" then some res else none

/-- A server whose cache holds, for `"sydney"`, a reading read at time 100. -/
def cachedServer : Server :=
  { APIKey := "key", cache := sydneyCache { ReadTime := some 100, Temperature := 21, WindSpeed := 4 } }

/-- A server with an empty cache. -/
def emptyServer : Server :=
  { APIKey := "key", cache := fun _ => none }

/-- An upstream that answers 200 with `current.temperature` 18 and
`current.wind_speed` 5; the fetch starts at time `now`; the caller's context
stays open. -/
def okWorld (now : Time) : World :=
  { Now := now
    QueryEscape := fun s => s
    Do := fun _ => Except.ok
      { StatusCode := 200, Decode := Except.ok { Temperature := some 18, WindSpeed := some 5 } }
    ctxDone := none }

/-- An upstream that answers 500; the caller's context stays open. -/
def failWorld (now : Time) : World :=
  { Now := now
    QueryEscape := fun s => s
    Do := fun _ => Except.ok { StatusCode := 500, Decode := Except.error (Error.plain "EOF") }
    ctxDone := none }

end wsapi

/-! ## The HTTP handler of `/v1/weather` -/

namespace http

/-- Constant `http.StatusOK`. -/
def StatusOK : Nat := 200
/-- Constant `http.StatusBadRequest`. -/
def StatusBadRequest : Nat := 400
/-- Constant `http.StatusInternalServerError`. -/
def StatusInternalServerError : Nat := 500
/-- Constant `http.StatusServiceUnavailable`. -/
def StatusServiceUnavailable : Nat := 503

end http

namespace status

/-- Message `google.rpc.Status` as far as the code fills it: `details` stays
empty. -/
structure Status where
  Code : Nat
  Message : String
  deriving DecidableEq, Repr

/-- Function `status.FromError` on a non-nil error: the status of a status
error, and code Unknown with the error's text for any other error. -/
def FromError (err : Error) : Status :=
  match err with
  | Error.status code message => { Code := code, Message := message }
  | Error.plain message => { Code := codes.Unknown, Message := message }

end status

namespace json

/-- A hexadecimal digit, lower case. -/
def hexDigit (n : Nat) : Char :=
  if n < 10 then Char.ofNat (48 + n) else Char.ofNat (87 + n)

/-- One character of a JSON string as `protojson.Marshal` writes it and
`json.Marshal` of the `json.RawMessage` leaves it after compaction with HTML
escaping: the quote (34) and the backslash (92) take a backslash, a control
character its short form or `\u00XX`, and `<` (60), `>` (62), `&` (38), U+2028,
U+2029 their `\uXXXX` form. -/
def escapeChar (c : Char) : String :=
  if c.toNat = 34 then "\\\""
  else if c.toNat = 92 then "\\\\"
  else if c.toNat = 8 then "\\b"
  else if c.toNat = 12 then "\\f"
  else if c.toNat = 10 then "\\n"
  else if c.toNat = 13 then "\\r"
  else if c.toNat = 9 then "\\t"
  else if c.toNat < 32 then
    "\\u00" ++ String.singleton (hexDigit (c.toNat / 16)) ++ String.singleton (hexDigit (c.toNat % 16))
  else if c.toNat = 60 then "\\u003c"
  else if c.toNat = 62 then "\\u003e"
  else if c.toNat = 38 then "\\u0026"
  else if c.toNat = 8232 then "\\u2028"
  else if c.toNat = 8233 then "\\u2029"
  else String.singleton c

/-- A JSON string literal. -/
def quote (s : String) : String :=
  "\"" ++ String.join (s.toList.map escapeChar) ++ "\""

/-- The bytes that `writeProtoJSON` hands to `writeBytes` for a status: the
fields `code` and `message` in this order, each left out when it is zero or
empty, without white space. -/
def marshalStatus (sts : status.Status) : String :=
  let code := if sts.Code = 0 then [] else ["\"code\":" ++ toString sts.Code]
  let message := if sts.Message = "" then [] else ["\"message\":" ++ quote sts.Message]
  "\x7b" ++ String.intercalate "," (code ++ message) ++ "\x7d"

end json

namespace weather

/-- Type `url.Values`: the values of each query parameter, in order; a
parameter that is absent has none. -/
abbrev Values := String → List String

/-- Method `url.Values.Get`: the first value of the parameter, or the empty
string. -/
def Values.Get (v : Values) (key : String) : String :=
  match v key with
  | [] => ""
  | s :: _ => s

/-- The body that a handler writes: the bytes of an error status, or the
`json.Marshal` of a `weatherResponse` (the text of its two numbers is not
embedded). -/
inductive Body where
  | status (bytes : String)
  | response (res : weatherResponse)
  deriving DecidableEq, Repr

/-- What `writeBytes` puts on the `http.ResponseWriter`: the status code, the
`Content-Type` header and the body. `Content-Length` is the length of the
body. -/
structure Response where
  StatusCode : Nat
  ContentType : String
  Body : Body
  deriving DecidableEq, Repr

/-- Function `writeBytes`. -/
def writeBytes (statusCode : Nat) (contentType : String) (body : Body) : Response :=
  { StatusCode := statusCode, ContentType := contentType, Body := body }

/-- Function `writeJSON`. -/
def writeJSON (statusCode : Nat) (JSON : Body) : Response :=
  writeBytes statusCode "application/json" JSON

/-- Function `writeProtoJSON`, on a status. -/
def writeProtoJSON (statusCode : Nat) (msg : status.Status) : Response :=
  writeJSON statusCode (Body.status (json.marshalStatus msg))

/-- Function `writeError`, on a non-nil error. -/
def writeError (statusCode : Nat) (err : Error) : Response :=
  writeProtoJSON statusCode (status.FromError err)

/-- How the handler ends: with the panic of `buildWeatherResponse`, or with a
response written. -/
inductive Handled where
  | panicked (maxAge : Int)
  | wrote (res : Response)
  deriving DecidableEq, Repr

/-- One run of the handler: the provider calls made and how it ended. -/
structure Served where
  calls : List Call
  out : Handled
  deriving DecidableEq, Repr

/-- The part of `(*Server).getWeather` after the call of `buildWeatherResponse`
(server.go lines 53-68), on what that call gave. -/
def respond (out : Outcome) : Handled :=
  match out with
  | Outcome.panicked maxAge => Handled.panicked maxAge
  | Outcome.error err =>
    let statusCode :=
      if (status.FromError err).Code = codes.Unavailable then http.StatusServiceUnavailable
      else http.StatusInternalServerError
    Handled.wrote (writeError statusCode err)
  | Outcome.ok res => Handled.wrote (writeJSON http.StatusOK (Body.response res))

/-- Method `(*Server).getWeather`, on the parsed query of the request URL. -/
def getWeather (x : Server) (params : Values) : Served :=
  let query := Values.Get params "city"
  if query = "" then
    { calls := []
      out := Handled.wrote (writeError http.StatusBadRequest
        (Error.status codes.InvalidArgument "at least one query parameter required")) }
  else
    let run := buildWeatherResponse x query
    { calls := run.calls, out := respond run.out }

/-- The query of a request `/v1/weather?city=<city>`. -/
def cityParams (city : String) : Values :=
  fun key => if key = "city" then [city] else []

/-- The query of a request `/v1/weather`, without parameters. -/
def noParams : Values := fun _ => []

/-- An Openweather reading without read time. -/
def owNoReadTime : openweather.Weather :=
  { ReadTime := none, Temp := 33, WindSpeed := 3 }

/-- A Weatherstack reading without read time. -/
def wsNoReadTime : weatherstack.CurrentWeather :=
  { ReadTime := none, Temperature := 29, WindSpeed := 20 }

end weather

namespace owapi

/-- The URL that `getWeather` requests. -/
def requestURL (x : Server) (w : World) (request : openweather.GetWeatherRequest) : String :=
  "https://api.openweathermap.org/data/2.5/weather?units=metric&appid="
    ++ w.QueryEscape x.APIKey ++ "&q=" ++ w.QueryEscape request.Query

/-- An upstream giving the response `res` to every request; the fetch starts at
time `now`. -/
def worldOf (now : Time) (res : Except Error Response) : World :=
  { Now := now, QueryEscape := fun s => s, Do := fun _ => res, ctxDone := none }

end owapi

namespace wsapi

/-- The URL that `getCurrentWeather` requests. -/
def requestURL (x : Server) (w : World) (request : weatherstack.GetCurrentWeatherRequest) :
    String :=
  "http://api.weatherstack.com/current?units=m&access_key="
    ++ w.QueryEscape x.APIKey ++ "&query=" ++ w.QueryEscape request.Query

/-- An upstream giving the response `res` to every request; the fetch starts at
time `now`. -/
def worldOf (now : Time) (res : Except Error Response) : World :=
  { Now := now, QueryEscape := fun s => s, Do := fun _ => res, ctxDone := none }

end wsapi

namespace weather

/-- An Openweather reading whose `ReadTime` has `Seconds` 9223372036854775807,
the largest `int64`, far outside the valid range of a timestamp. -/
def owFarFuture : openweather.Weather :=
  { ReadTime := some 9223372036854775807000000000, Temp := 23, WindSpeed := 15 }

end weather

/-! ## Times and timestamps -/

/-- A valid timestamp converts to the instant it counts: `AsTime` does not wrap
in the valid range. -/
theorem AsTime_valid (t : Int) (h : Timestamp.IsValid t) : AsTime (some t) = t := by
  obtain ⟨h1, h2⟩ := h
  show (wrapInt64 (t / 1000000000 + 62135596800) - 62135596800) * 1000000000
    + t % 1000000000 = t
  unfold wrapInt64
  omega

/-- Against a valid timestamp, the saturating `Add` compares as the exact sum
does. -/
theorem lt_Add_iff (t now d : Int) (h : Timestamp.IsValid t) :
    t < Time.Add now d ↔ t < now + d := by
  obtain ⟨h1, h2⟩ := h
  show t < (if (now + d) / 1000000000 + 62135596800 > 9223372036854775807 then
      (9223372036854775807 - 62135596800) * 1000000000 + (now + d) % 1000000000
    else if (now + d) / 1000000000 + 62135596800 < -9223372036854775808 then
      (-9223372036854775807 - 62135596800) * 1000000000 + (now + d) % 1000000000
    else now + d) ↔ t < now + d
  split
  · omega
  · split <;> omega

/-- For a valid read time `t`, the test `AsTime().Before(minReadTime)` of the
code, with `minReadTime = TimeNow().Add(-MaxAge)`, says that `t` is before
`now - maxAge`. -/
theorem Before_minReadTime_iff (t now maxAge : Int) (h : Timestamp.IsValid t) :
    Time.Before (AsTime (some t)) (Time.Add now (-maxAge)) = true ↔ t < now - maxAge := by
  rw [AsTime_valid t h]
  simp only [Time.Before, decide_eq_true_eq]
  rw [lt_Add_iff t now (-maxAge) h]
  omega

/-- For valid timestamps `t` and `m`, the test `AsTime().Before(AsTime())` of the
fast path says that `t` is before `m`. -/
theorem Before_AsTime_iff (t m : Int) (ht : Timestamp.IsValid t) (hm : Timestamp.IsValid m) :
    Time.Before (AsTime (some t)) (AsTime (some m)) = true ↔ t < m := by
  rw [AsTime_valid t ht, AsTime_valid m hm]
  simp [Time.Before]

/-! ## The fallback aggregator -/

namespace weather

/-- A reading that the code finds not before `minReadTime`, with a nil error,
ends the block with `fresh`. -/
theorem checkReadTime_fresh (t : Timestamp) (minReadTime : Time)
    (h : Time.Before (AsTime (some t)) minReadTime = false) :
    checkReadTime none (some t) minReadTime = Checked.fresh := by
  simp [checkReadTime, h]

/-- A reading that the code finds before `minReadTime`, with a nil error,
leaves the error variable nil. -/
theorem checkReadTime_stale (t : Timestamp) (minReadTime : Time)
    (h : Time.Before (AsTime (some t)) minReadTime = true) :
    checkReadTime none (some t) minReadTime = Checked.carry none := by
  simp [checkReadTime, h]

/-- An error of the provider is carried on as it is. -/
theorem checkReadTime_err (e : Error) (readTime : Option Timestamp) (minReadTime : Time) :
    checkReadTime (some e) readTime minReadTime = Checked.carry (some e) := by
  simp [checkReadTime]

/-- A valid read time not before `now - maxAge` is fresh for the code. -/
theorem Before_false_of_le (t now maxAge : Int) (h : Timestamp.IsValid t)
    (hle : now - maxAge ≤ t) :
    Time.Before (AsTime (some t)) (Time.Add now (-maxAge)) = false := by
  cases hB : Time.Before (AsTime (some t)) (Time.Add now (-maxAge)) with
  | false => rfl
  | true =>
    have := (Before_minReadTime_iff t now maxAge h).mp hB
    omega

/-- A valid read time before `now - maxAge` is stale for the code. -/
theorem Before_true_of_lt (t now maxAge : Int) (h : Timestamp.IsValid t)
    (hlt : t < now - maxAge) :
    Time.Before (AsTime (some t)) (Time.Add now (-maxAge)) = true :=
  (Before_minReadTime_iff t now maxAge h).mpr hlt

/-- The providers are called exactly when `MaxAge` is positive: the first call,
if any, is the Openweather call, and there is none after the panic. -/
theorem calls_ne_nil_iff (x : Server) (query : String) :
    (buildWeatherResponse x query).calls ≠ [] ↔ 0 < x.MaxAge := by
  unfold buildWeatherResponse
  by_cases hAge : x.MaxAge ≤ 0
  · simp [hAge]
  · simp only [hAge, if_false]
    have h0 : 0 < x.MaxAge := not_le.mp hAge
    split
    · simp [h0]
    · split <;> simp [h0]

/-- Claim C1. Short-circuit: with `MaxAge > 0`, if Openweather replies with a
reading and a nil error, and the reading's read time `t` is present, a valid
timestamp, and not before `TimeNow() - MaxAge` (equality counts as fresh), then
`buildWeatherResponse` returns, with a nil error, the response whose wind speed
and temperature are the reading's `WindSpeed` and `Temp` (what
`fromOpenweather` makes of the reading), and its only provider call is the
Openweather call: Weatherstack is not called. -/
theorem C1_short_circuit (x : Server) (query : String) (ow : openweather.Weather)
    (t : Timestamp)
    (hAge : 0 < x.MaxAge)
    (hOw : x.Openweather { Query := query } = { res := some ow, err := none })
    (hRead : ow.ReadTime = some t)
    (hValid : Timestamp.IsValid t)
    (hFresh : x.TimeNow () - x.MaxAge ≤ t) :
    (buildWeatherResponse x query).out
        = Outcome.ok { WindSpeed := ow.WindSpeed, TemperatureDegrees := ow.Temp }
      ∧ (buildWeatherResponse x query).out = Outcome.ok (fromOpenweather (some ow))
      ∧ (buildWeatherResponse x query).calls = [Call.openweather { Query := query }]
      ∧ ∀ req, Call.weatherstack req ∉ (buildWeatherResponse x query).calls := by
  have hAge2 : ¬ x.MaxAge ≤ 0 := not_le.mpr hAge
  have hB := Before_false_of_le t (x.TimeNow ()) x.MaxAge hValid hFresh
  have hRun : buildWeatherResponse x query =
      { calls := [Call.openweather { Query := query }]
        out := Outcome.ok { WindSpeed := ow.WindSpeed, TemperatureDegrees := ow.Temp } } := by
    simp [buildWeatherResponse, hAge2, hOw, openweather.GetReadTime, hRead,
      checkReadTime_fresh _ _ hB, fromOpenweather, openweather.GetWindSpeed, openweather.GetTemp]
  rw [hRun]
  simp [fromOpenweather, openweather.GetWindSpeed, openweather.GetTemp]

/-- Witness of C1: the test `openweather cached` (clock 0, `MaxAge` 3s, read
time -2s, `Temp` 23, `WindSpeed` 15). -/
theorem C1_short_circuit_witness :
    (buildWeatherResponse (testServer (owOk owCached) (wsFail "unused")) "brisbane").out
        = Outcome.ok { WindSpeed := owCached.WindSpeed, TemperatureDegrees := owCached.Temp }
      ∧ (buildWeatherResponse (testServer (owOk owCached) (wsFail "unused")) "brisbane").out
        = Outcome.ok (fromOpenweather (some owCached))
      ∧ (buildWeatherResponse (testServer (owOk owCached) (wsFail "unused")) "brisbane").calls
        = [Call.openweather { Query := "brisbane" }]
      ∧ ∀ req, Call.weatherstack req ∉
        (buildWeatherResponse (testServer (owOk owCached) (wsFail "unused")) "brisbane").calls :=
  C1_short_circuit (testServer (owOk owCached) (wsFail "unused")) "brisbane" owCached
    (-2000000000) (by decide) rfl rfl (by decide) (by decide)

end weather

namespace weather

/-- Claim C2. Freshness fallback and tie-break: whenever both providers were
called (the Weatherstack call is among the calls made) and both replied with a
reading and a nil error, with valid read times `t1` (Openweather) and `t2`
(Weatherstack), `buildWeatherResponse` returns the Weatherstack reading's
`WindSpeed` and `Temperature` if `t2` is strictly later than `t1`, and the
Openweather reading's `WindSpeed` and `Temp` otherwise; so equal read times
(the else branch) give the Openweather reading. -/
theorem C2_freshest_wins (x : Server) (query : String)
    (ow : openweather.Weather) (ws : weatherstack.CurrentWeather) (t1 t2 : Timestamp)
    (hOw : x.Openweather { Query := query } = { res := some ow, err := none })
    (hWs : x.Weatherstack { Query := query } = { res := some ws, err := none })
    (h1 : ow.ReadTime = some t1) (h2 : ws.ReadTime = some t2)
    (hValid1 : Timestamp.IsValid t1) (hValid2 : Timestamp.IsValid t2)
    (hBoth : ∃ req, Call.weatherstack req ∈ (buildWeatherResponse x query).calls) :
    (buildWeatherResponse x query).out =
      if t1 < t2 then
        Outcome.ok { WindSpeed := ws.WindSpeed, TemperatureDegrees := ws.Temperature }
      else
        Outcome.ok { WindSpeed := ow.WindSpeed, TemperatureDegrees := ow.Temp } := by
  obtain ⟨req, hreq⟩ := hBoth
  have hAge : ¬ x.MaxAge ≤ 0 := by
    intro h
    simp [buildWeatherResponse, h] at hreq
  have hStale : Time.Before (AsTime (some t1)) (Time.Add (x.TimeNow ()) (-x.MaxAge)) = true := by
    cases hB : Time.Before (AsTime (some t1)) (Time.Add (x.TimeNow ()) (-x.MaxAge)) with
    | true => rfl
    | false =>
      simp [buildWeatherResponse, hAge, hOw, openweather.GetReadTime, h1,
        checkReadTime_fresh _ _ hB] at hreq
  have hlt1 : t1 < x.TimeNow () - x.MaxAge :=
    (Before_minReadTime_iff t1 (x.TimeNow ()) x.MaxAge hValid1).mp hStale
  cases hB2 : Time.Before (AsTime (some t2)) (Time.Add (x.TimeNow ()) (-x.MaxAge)) with
  | false =>
    have hle2 : ¬ t2 < x.TimeNow () - x.MaxAge := by
      intro h
      have := (Before_minReadTime_iff t2 (x.TimeNow ()) x.MaxAge hValid2).mpr h
      rw [hB2] at this
      cases this
    have hlt : t1 < t2 := lt_of_lt_of_le hlt1 (not_lt.mp hle2)
    simp [buildWeatherResponse, hAge, hOw, hWs, openweather.GetReadTime,
      weatherstack.GetReadTime, h1, h2, checkReadTime_stale _ _ hStale,
      checkReadTime_fresh _ _ hB2, hlt, fromWeatherstack, weatherstack.GetWindSpeed,
      weatherstack.GetTemperature]
  | true =>
    simp [buildWeatherResponse, hAge, hOw, hWs, openweather.GetReadTime,
      weatherstack.GetReadTime, h1, h2, checkReadTime_stale _ _ hStale,
      checkReadTime_stale _ _ hB2, fallback, AsTime_valid t1 hValid1, AsTime_valid t2 hValid2,
      Time.After, fromWeatherstack, fromOpenweather, weatherstack.GetWindSpeed,
      weatherstack.GetTemperature, openweather.GetWindSpeed, openweather.GetTemp]

/-- Witness of C2: the test `both expired same read time`; the tie gives the
Openweather reading's `WindSpeed` 3 and `Temp` 33. -/
theorem C2_freshest_wins_witness :
    (buildWeatherResponse (testServer (owOk owExpired) (wsOk wsExpired)) "sydney").out =
      if (-180000000001 : Int) < -180000000001 then
        Outcome.ok { WindSpeed := wsExpired.WindSpeed, TemperatureDegrees := wsExpired.Temperature }
      else
        Outcome.ok { WindSpeed := owExpired.WindSpeed, TemperatureDegrees := owExpired.Temp } :=
  C2_freshest_wins (testServer (owOk owExpired) (wsOk wsExpired)) "sydney" owExpired wsExpired
    (-180000000001) (-180000000001) rfl rfl rfl rfl (by decide) (by decide)
    ⟨{ Query := "sydney" }, by decide⟩

end weather

namespace weather

/-- Claim C3. One provider only: with `MaxAge > 0` (the providers are called),
if Openweather replies with a reading that has a read time `t`, whatever `t`
is, and Weatherstack replies with an error, `buildWeatherResponse` returns the
response whose wind speed and temperature are the Openweather reading's
`WindSpeed` and `Temp`; if Openweather replies with an error and Weatherstack
with a reading that has a read time `t`, whatever `t` is, it returns the
response whose wind speed and temperature are the Weatherstack reading's
`WindSpeed` and `Temperature`. -/
theorem C3_single_success (x : Server) (query : String) (hAge : 0 < x.MaxAge) :
    (∀ (ow : openweather.Weather) (t : Timestamp) (r : Option weatherstack.CurrentWeather)
        (e : Error),
        x.Openweather { Query := query } = { res := some ow, err := none } →
        ow.ReadTime = some t →
        x.Weatherstack { Query := query } = { res := r, err := some e } →
        (buildWeatherResponse x query).out
          = Outcome.ok { WindSpeed := ow.WindSpeed, TemperatureDegrees := ow.Temp })
      ∧ (∀ (ws : weatherstack.CurrentWeather) (t : Timestamp) (r : Option openweather.Weather)
        (e : Error),
        x.Openweather { Query := query } = { res := r, err := some e } →
        x.Weatherstack { Query := query } = { res := some ws, err := none } →
        ws.ReadTime = some t →
        (buildWeatherResponse x query).out
          = Outcome.ok { WindSpeed := ws.WindSpeed, TemperatureDegrees := ws.Temperature }) := by
  have hAge2 : ¬ x.MaxAge ≤ 0 := not_le.mpr hAge
  constructor
  · intro ow t r e hOw hRead hWs
    cases hB : Time.Before (AsTime (some t)) (Time.Add (x.TimeNow ()) (-x.MaxAge)) with
    | false =>
      simp [buildWeatherResponse, hAge2, hOw, openweather.GetReadTime, hRead,
        checkReadTime_fresh _ _ hB, fromOpenweather, openweather.GetWindSpeed,
        openweather.GetTemp]
    | true =>
      simp [buildWeatherResponse, hAge2, hOw, hWs, openweather.GetReadTime, hRead,
        checkReadTime_stale _ _ hB, checkReadTime_err, fallback, fromOpenweather,
        openweather.GetWindSpeed, openweather.GetTemp]
  · intro ws t r e hOw hWs hRead
    cases hB : Time.Before (AsTime (some t)) (Time.Add (x.TimeNow ()) (-x.MaxAge)) with
    | false =>
      simp [buildWeatherResponse, hAge2, hOw, hWs, weatherstack.GetReadTime, hRead,
        checkReadTime_fresh _ _ hB, checkReadTime_err, fromWeatherstack,
        weatherstack.GetWindSpeed, weatherstack.GetTemperature]
    | true =>
      simp [buildWeatherResponse, hAge2, hOw, hWs, weatherstack.GetReadTime, hRead,
        checkReadTime_stale _ _ hB, checkReadTime_err, fallback, fromWeatherstack,
        weatherstack.GetWindSpeed, weatherstack.GetTemperature]

/-- Witness of C3: the tests `openweather expired weatherstack error` and
`openweather error weatherstack expired`, both readings older than `MaxAge`. -/
theorem C3_single_success_witness :
    (buildWeatherResponse (testServer (owOk owExpired2) (wsFail "weatherstack error")) "sydney").out
        = Outcome.ok { WindSpeed := owExpired2.WindSpeed, TemperatureDegrees := owExpired2.Temp }
      ∧ (buildWeatherResponse (testServer (owFail "openweather error") (wsOk wsExpired)) "sydney").out
        = Outcome.ok { WindSpeed := wsExpired.WindSpeed
                       TemperatureDegrees := wsExpired.Temperature } :=
  ⟨(C3_single_success (testServer (owOk owExpired2) (wsFail "weatherstack error")) "sydney"
      (by decide)).1 owExpired2 (-180000000002) none (Error.plain "weatherstack error") rfl rfl rfl,
   (C3_single_success (testServer (owFail "openweather error") (wsOk wsExpired)) "sydney"
      (by decide)).2 wsExpired (-180000000001) none (Error.plain "openweather error") rfl rfl rfl⟩

/-- Claim C4. Total failure: with `MaxAge > 0` (the providers are called), if
both providers reply with an error, `buildWeatherResponse` returns a nil
response and the gRPC status error of code Unavailable with the message
"no weather providers available", after calling both; its outcome is not a
success. -/
theorem C4_total_failure (x : Server) (query : String)
    (r1 : Option openweather.Weather) (e1 : Error)
    (r2 : Option weatherstack.CurrentWeather) (e2 : Error)
    (hAge : 0 < x.MaxAge)
    (hOw : x.Openweather { Query := query } = { res := r1, err := some e1 })
    (hWs : x.Weatherstack { Query := query } = { res := r2, err := some e2 }) :
    (buildWeatherResponse x query).out
        = Outcome.error (Error.status codes.Unavailable "no weather providers available")
      ∧ codes.Unavailable = 14
      ∧ (∀ res, (buildWeatherResponse x query).out ≠ Outcome.ok res)
      ∧ (buildWeatherResponse x query).calls
        = [Call.openweather { Query := query }, Call.weatherstack { Query := query }] := by
  have hAge' : ¬ x.MaxAge ≤ 0 := not_le.mpr hAge
  have hRun : buildWeatherResponse x query =
      { calls := [Call.openweather { Query := query }, Call.weatherstack { Query := query }]
        out := Outcome.error (Error.status codes.Unavailable "no weather providers available") } := by
    simp [buildWeatherResponse, hAge', hOw, hWs, checkReadTime_err, fallback]
  rw [hRun]
  simp [codes.Unavailable]

/-- Witness of C4: the test `both error`. -/
theorem C4_total_failure_witness :
    (buildWeatherResponse (testServer (owFail "openweather error") (wsFail "weatherstack error"))
        "sydney").out
        = Outcome.error (Error.status codes.Unavailable "no weather providers available")
      ∧ codes.Unavailable = 14
      ∧ (∀ res, (buildWeatherResponse (testServer (owFail "openweather error")
          (wsFail "weatherstack error")) "sydney").out ≠ Outcome.ok res)
      ∧ (buildWeatherResponse (testServer (owFail "openweather error") (wsFail "weatherstack error"))
        "sydney").calls
        = [Call.openweather { Query := "sydney" }, Call.weatherstack { Query := "sydney" }] :=
  C4_total_failure (testServer (owFail "openweather error") (wsFail "weatherstack error")) "sydney"
    none (Error.plain "openweather error") none (Error.plain "weatherstack error")
    (by decide) rfl rfl

/-- Claim C5. Secondary fresh: with `MaxAge > 0` (the providers are called), if
Openweather replies with an error, or with a reading whose read time is a
valid timestamp before `TimeNow() - MaxAge`, and Weatherstack replies with a
reading whose read time is a valid timestamp not before `TimeNow() - MaxAge`,
then `buildWeatherResponse` returns, with a nil error, the response whose wind
speed and temperature are the Weatherstack reading's `WindSpeed` and
`Temperature`. -/
theorem C5_secondary_fresh (x : Server) (query : String)
    (ws : weatherstack.CurrentWeather) (t2 : Timestamp)
    (hAge : 0 < x.MaxAge)
    (hOw : (∃ r e, x.Openweather { Query := query } = { res := r, err := some e })
      ∨ (∃ ow t1, x.Openweather { Query := query } = { res := some ow, err := none }
          ∧ ow.ReadTime = some t1 ∧ Timestamp.IsValid t1 ∧ t1 < x.TimeNow () - x.MaxAge))
    (hWs : x.Weatherstack { Query := query } = { res := some ws, err := none })
    (hRead : ws.ReadTime = some t2)
    (hValid : Timestamp.IsValid t2)
    (hFresh : x.TimeNow () - x.MaxAge ≤ t2) :
    (buildWeatherResponse x query).out
        = Outcome.ok { WindSpeed := ws.WindSpeed, TemperatureDegrees := ws.Temperature }
      ∧ (buildWeatherResponse x query).out = Outcome.ok (fromWeatherstack (some ws)) := by
  have hAge2 : ¬ x.MaxAge ≤ 0 := not_le.mpr hAge
  have hB2 := Before_false_of_le t2 (x.TimeNow ()) x.MaxAge hValid hFresh
  have hRun : (buildWeatherResponse x query).out = Outcome.ok (fromWeatherstack (some ws)) := by
    rcases hOw with ⟨r, e, hOw⟩ | ⟨ow, t1, hOw, h1, hValid1, hlt⟩
    · simp [buildWeatherResponse, hAge2, hOw, hWs, weatherstack.GetReadTime, hRead,
        checkReadTime_fresh _ _ hB2, checkReadTime_err]
    · have hB1 := Before_true_of_lt t1 (x.TimeNow ()) x.MaxAge hValid1 hlt
      simp [buildWeatherResponse, hAge2, hOw, hWs, openweather.GetReadTime,
        weatherstack.GetReadTime, hRead, h1, checkReadTime_fresh _ _ hB2,
        checkReadTime_stale _ _ hB1]
  refine ⟨?_, hRun⟩
  rw [hRun]
  rfl

/-- Witness of C5: the test `openweather expired weatherstack success`. -/
theorem C5_secondary_fresh_witness :
    (buildWeatherResponse (testServer (owOk owExpired) (wsOk wsSuccess)) "sydney").out
        = Outcome.ok { WindSpeed := wsSuccess.WindSpeed, TemperatureDegrees := wsSuccess.Temperature }
      ∧ (buildWeatherResponse (testServer (owOk owExpired) (wsOk wsSuccess)) "sydney").out
        = Outcome.ok (fromWeatherstack (some wsSuccess)) :=
  C5_secondary_fresh (testServer (owOk owExpired) (wsOk wsSuccess)) "sydney" wsSuccess 25000000
    (by decide) (Or.inr ⟨owExpired, -180000000001, rfl, rfl, by decide, by decide⟩) rfl rfl
    (by decide) (by decide)

end weather

namespace weather

/-- Every provider call that `buildWeatherResponse` makes carries the caller's
query and a nil `MinReadTime`: both requests are built as `{Query: query}`. -/
theorem calls_request (x : Server) (query : String) (c : Call)
    (hc : c ∈ (buildWeatherResponse x query).calls) :
    c = Call.openweather { Query := query, MinReadTime := none }
      ∨ c = Call.weatherstack { Query := query, MinReadTime := none } := by
  unfold buildWeatherResponse at hc
  by_cases hAge : x.MaxAge ≤ 0
  · simp [hAge] at hc
  · simp only [hAge, if_false] at hc
    split at hc
    · simp at hc
      exact Or.inl hc
    · split at hc <;> simpa using hc

/-- Claim C6, the code at the input of the test `openweather expired
weatherstack success` (clock 0, `MaxAge` 3s, query "sydney"): both requests
carry the query, and `TimeNow() - MaxAge` is -3s, but the `MinReadTime` of both
requests is nil, where the claim and the test expect -3s. -/
theorem C6_min_read_time_is_nil :
    (buildWeatherResponse (testServer (owOk owExpired) (wsOk wsSuccess)) "sydney").calls
        = [Call.openweather { Query := "sydney", MinReadTime := none },
           Call.weatherstack { Query := "sydney", MinReadTime := none }]
      ∧ Time.Add ((testServer (owOk owExpired) (wsOk wsSuccess)).TimeNow ())
          (-(testServer (owOk owExpired) (wsOk wsSuccess)).MaxAge) = -3000000000
      ∧ (none : Option Time) ≠ some (-3000000000) := by
  decide

/-- The response built from an Openweather reading copies `WindSpeed` and
`Temp` as they are. -/
theorem fromOpenweather_some (w : openweather.Weather) :
    fromOpenweather (some w) = { WindSpeed := w.WindSpeed, TemperatureDegrees := w.Temp } := rfl

/-- Claim C7, the code at the input of the test `openweather success`
(Openweather reading with `Temp` 29 and `WindSpeed` 20, fresh): the response
has temperature 29 and wind speed 20, the reading's `WindSpeed` unconverted,
where the claim and the test expect 20 * 3.6 = 72. -/
theorem C7_wind_speed_not_converted :
    (buildWeatherResponse (testServer (owOk owSuccess) (wsFail "unused")) "sydney").out
        = Outcome.ok { WindSpeed := 20, TemperatureDegrees := 29 }
      ∧ (20 : Rat) * (36 / 10) = 72
      ∧ (20 : Rat) ≠ 72 := by
  refine ⟨by decide, by norm_num, by norm_num⟩

end weather

/-! ## The provider caches -/

namespace owapi

/-- The fast path hits: a cached reading with a valid read time `t`, and a
request with no `MinReadTime` or with a valid `MinReadTime ≤ t`. -/
theorem fastPath_hit (x : Server) (req : openweather.GetWeatherRequest)
    (res : openweather.Weather) (t : Timestamp)
    (hCache : x.cache (newCacheKey req) = some res) (hRead : res.ReadTime = some t)
    (hValid : Timestamp.IsValid t)
    (hMin : req.MinReadTime = none
      ∨ ∃ m, req.MinReadTime = some m ∧ Timestamp.IsValid m ∧ m ≤ t) :
    fastPath x req = some res := by
  rcases hMin with hNone | ⟨m, hm, hValidM, hle⟩
  · simp [fastPath, hCache, hNone]
  · have hB : Time.Before (AsTime (some t)) (AsTime (some m)) = false := by
      cases hB : Time.Before (AsTime (some t)) (AsTime (some m)) with
      | false => rfl
      | true => exact absurd ((Before_AsTime_iff t m hValid hValidM).mp hB) (not_lt.mpr hle)
    simp [fastPath, hCache, hm, hRead, hB]

/-- The fast path misses: a cached reading with a valid read time `t`, and a
request with a valid `MinReadTime > t`. -/
theorem fastPath_miss (x : Server) (req : openweather.GetWeatherRequest)
    (res : openweather.Weather) (t m : Timestamp)
    (hCache : x.cache (newCacheKey req) = some res) (hRead : res.ReadTime = some t)
    (hValid : Timestamp.IsValid t)
    (hm : req.MinReadTime = some m) (hValidM : Timestamp.IsValid m) (hlt : t < m) :
    fastPath x req = none := by
  have hB := (Before_AsTime_iff t m hValid hValidM).mpr hlt
  simp [fastPath, hCache, hm, hRead, hB]

/-- What the fast path returns is the cached reading; under a request with a
valid `MinReadTime` `m`, and its read time a valid timestamp, that read time is
not before `m`. -/
theorem fastPath_bound (x : Server) (req : openweather.GetWeatherRequest)
    (res : openweather.Weather) (m : Timestamp)
    (hm : req.MinReadTime = some m) (hValidM : Timestamp.IsValid m)
    (hValid : ∀ t, res.ReadTime = some t → Timestamp.IsValid t)
    (hFast : fastPath x req = some res) :
    x.cache (newCacheKey req) = some res ∧ ∃ t, res.ReadTime = some t ∧ m ≤ t := by
  unfold fastPath at hFast
  cases hc : x.cache (newCacheKey req) with
  | none => simp [hc] at hFast
  | some c =>
    cases hr : c.ReadTime with
    | none => simp [hc, hm, hr] at hFast
    | some t =>
      cases hB : Time.Before (AsTime (some t)) (AsTime (some m)) with
      | true => simp [hc, hm, hr, hB] at hFast
      | false =>
        simp [hc, hm, hr, hB] at hFast
        subst hFast
        refine ⟨rfl, t, hr, ?_⟩
        have hValidT := hValid t hr
        apply not_lt.mp
        intro hlt
        have := (Before_AsTime_iff t m hValidT hValidM).mpr hlt
        rw [hB] at this
        cases this

/-- On the slow path the call returns what the callback returned (when the
caller's context stays open), one fetch is requested, and the server afterwards
is the one the callback left. -/
theorem GetWeather_slow (x : Server) (w : World) (req : openweather.GetWeatherRequest)
    (hFast : fastPath x req = none) :
    (GetWeather x w req).fetches = [req]
      ∧ (GetWeather x w req).server = (exclusiveValue x w (newCacheKey req) req).1
      ∧ (w.ctxDone = none →
          (GetWeather x w req).out = (exclusiveValue x w (newCacheKey req) req).2) := by
  unfold GetWeather
  simp only [hFast]
  cases w.ctxDone <;> simp

/-- A reading that the upstream fetch returns has the read time `w.Now`. -/
theorem getWeather_readTime (x : Server) (w : World) (req : openweather.GetWeatherRequest)
    (res : openweather.Weather) (h : getWeather x w req = Except.ok res) :
    res.ReadTime = some w.Now := by
  unfold getWeather at h
  simp only at h
  split at h
  · cases h
  · split at h
    · cases h
    · split at h
      · cases h
      · split at h
        · cases h
        · split at h
          · cases h
          · cases h
            rfl

end owapi

namespace wsapi

/-- The fast path hits: a cached reading with a valid read time `t`, and a
request with no `MinReadTime` or with a valid `MinReadTime ≤ t`. -/
theorem fastPath_hit_ws (x : Server) (req : weatherstack.GetCurrentWeatherRequest)
    (res : weatherstack.CurrentWeather) (t : Timestamp)
    (hCache : x.cache (newCacheKey req) = some res) (hRead : res.ReadTime = some t)
    (hValid : Timestamp.IsValid t)
    (hMin : req.MinReadTime = none
      ∨ ∃ m, req.MinReadTime = some m ∧ Timestamp.IsValid m ∧ m ≤ t) :
    fastPath x req = some res := by
  rcases hMin with hNone | ⟨m, hm, hValidM, hle⟩
  · simp [fastPath, hCache, hNone]
  · have hB : Time.Before (AsTime (some t)) (AsTime (some m)) = false := by
      cases hB : Time.Before (AsTime (some t)) (AsTime (some m)) with
      | false => rfl
      | true => exact absurd ((Before_AsTime_iff t m hValid hValidM).mp hB) (not_lt.mpr hle)
    simp [fastPath, hCache, hm, hRead, hB]

/-- The fast path misses: a cached reading with a valid read time `t`, and a
request with a valid `MinReadTime > t`. -/
theorem fastPath_miss_ws (x : Server) (req : weatherstack.GetCurrentWeatherRequest)
    (res : weatherstack.CurrentWeather) (t m : Timestamp)
    (hCache : x.cache (newCacheKey req) = some res) (hRead : res.ReadTime = some t)
    (hValid : Timestamp.IsValid t)
    (hm : req.MinReadTime = some m) (hValidM : Timestamp.IsValid m) (hlt : t < m) :
    fastPath x req = none := by
  have hB := (Before_AsTime_iff t m hValid hValidM).mpr hlt
  simp [fastPath, hCache, hm, hRead, hB]

/-- What the fast path returns is the cached reading; under a request with a
valid `MinReadTime` `m`, and its read time a valid timestamp, that read time is
not before `m`. -/
theorem fastPath_bound_ws (x : Server) (req : weatherstack.GetCurrentWeatherRequest)
    (res : weatherstack.CurrentWeather) (m : Timestamp)
    (hm : req.MinReadTime = some m) (hValidM : Timestamp.IsValid m)
    (hValid : ∀ t, res.ReadTime = some t → Timestamp.IsValid t)
    (hFast : fastPath x req = some res) :
    x.cache (newCacheKey req) = some res ∧ ∃ t, res.ReadTime = some t ∧ m ≤ t := by
  unfold fastPath at hFast
  cases hc : x.cache (newCacheKey req) with
  | none => simp [hc] at hFast
  | some c =>
    cases hr : c.ReadTime with
    | none => simp [hc, hm, hr] at hFast
    | some t =>
      cases hB : Time.Before (AsTime (some t)) (AsTime (some m)) with
      | true => simp [hc, hm, hr, hB] at hFast
      | false =>
        simp [hc, hm, hr, hB] at hFast
        subst hFast
        refine ⟨rfl, t, hr, ?_⟩
        have hValidT := hValid t hr
        apply not_lt.mp
        intro hlt
        have := (Before_AsTime_iff t m hValidT hValidM).mpr hlt
        rw [hB] at this
        cases this

/-- On the slow path the call returns what the callback returned (when the
caller's context stays open), one fetch is requested, and the server afterwards
is the one the callback left. -/
theorem GetCurrentWeather_slow (x : Server) (w : World)
    (req : weatherstack.GetCurrentWeatherRequest) (hFast : fastPath x req = none) :
    (GetCurrentWeather x w req).fetches = [req]
      ∧ (GetCurrentWeather x w req).server = (exclusiveValue x w (newCacheKey req) req).1
      ∧ (w.ctxDone = none →
          (GetCurrentWeather x w req).out = (exclusiveValue x w (newCacheKey req) req).2) := by
  unfold GetCurrentWeather
  simp only [hFast]
  cases w.ctxDone <;> simp

/-- A reading that the upstream fetch returns has the read time `w.Now`. -/
theorem getCurrentWeather_readTime (x : Server) (w : World)
    (req : weatherstack.GetCurrentWeatherRequest)
    (res : weatherstack.CurrentWeather) (h : getCurrentWeather x w req = Except.ok res) :
    res.ReadTime = some w.Now := by
  unfold getCurrentWeather at h
  simp only at h
  split at h
  · cases h
  · split at h
    · cases h
    · split at h
      · cases h
      · split at h
        · cases h
        · split at h
          · cases h
          · cases h
            rfl

end wsapi

/-- Claim C8. Cache fast path, for both providers: when the cache holds, under
the request's key, a reading `res` whose read time `t` is a valid timestamp, a
call with no `MinReadTime` or with a valid `MinReadTime ≤ t` returns exactly
`res` with a nil error, requests no upstream fetch and leaves the server (its
cache) as it was; a call with a valid `MinReadTime > t` gets nothing from the
fast path and requests one fetch. -/
theorem C8_fast_path
    (xo : owapi.Server) (wo : owapi.World) (reqo : openweather.GetWeatherRequest)
    (reso : openweather.Weather) (tO : Timestamp)
    (xs : wsapi.Server) (ws : wsapi.World) (reqs : weatherstack.GetCurrentWeatherRequest)
    (ress : weatherstack.CurrentWeather) (tS : Timestamp)
    (hCacheO : xo.cache (owapi.newCacheKey reqo) = some reso) (hReadO : reso.ReadTime = some tO)
    (hValidO : Timestamp.IsValid tO)
    (hCacheS : xs.cache (wsapi.newCacheKey reqs) = some ress) (hReadS : ress.ReadTime = some tS)
    (hValidS : Timestamp.IsValid tS) :
    ((reqo.MinReadTime = none
          ∨ ∃ m, reqo.MinReadTime = some m ∧ Timestamp.IsValid m ∧ m ≤ tO) →
        (owapi.GetWeather xo wo reqo).out = Except.ok reso
          ∧ (owapi.GetWeather xo wo reqo).fetches = []
          ∧ (owapi.GetWeather xo wo reqo).server = xo)
      ∧ (∀ m, reqo.MinReadTime = some m → Timestamp.IsValid m → tO < m →
        owapi.fastPath xo reqo = none ∧ (owapi.GetWeather xo wo reqo).fetches = [reqo])
      ∧ ((reqs.MinReadTime = none
          ∨ ∃ m, reqs.MinReadTime = some m ∧ Timestamp.IsValid m ∧ m ≤ tS) →
        (wsapi.GetCurrentWeather xs ws reqs).out = Except.ok ress
          ∧ (wsapi.GetCurrentWeather xs ws reqs).fetches = []
          ∧ (wsapi.GetCurrentWeather xs ws reqs).server = xs)
      ∧ (∀ m, reqs.MinReadTime = some m → Timestamp.IsValid m → tS < m →
        wsapi.fastPath xs reqs = none ∧ (wsapi.GetCurrentWeather xs ws reqs).fetches = [reqs]) := by
  refine ⟨fun h => ?_, fun m hm hv hlt => ?_, fun h => ?_, fun m hm hv hlt => ?_⟩
  · have hFast := owapi.fastPath_hit xo reqo reso tO hCacheO hReadO hValidO h
    simp [owapi.GetWeather, hFast]
  · have hFast := owapi.fastPath_miss xo reqo reso tO m hCacheO hReadO hValidO hm hv hlt
    exact ⟨hFast, (owapi.GetWeather_slow xo wo reqo hFast).1⟩
  · have hFast := wsapi.fastPath_hit_ws xs reqs ress tS hCacheS hReadS hValidS h
    simp [wsapi.GetCurrentWeather, hFast]
  · have hFast := wsapi.fastPath_miss_ws xs reqs ress tS m hCacheS hReadS hValidS hm hv hlt
    exact ⟨hFast, (wsapi.GetCurrentWeather_slow xs ws reqs hFast).1⟩

/-- Witness of C8: a reading read at 100 cached for "sydney"; a request with
`MinReadTime` 100 is served from the cache, one with `MinReadTime` 101 requests
a fetch. -/
theorem C8_fast_path_witness :
    ((owapi.GetWeather owapi.cachedServer (owapi.okWorld 200)
          { Query := "sydney", MinReadTime := some 100 }).out
        = Except.ok { ReadTime := some 100, Temp := 21, WindSpeed := 4 }
      ∧ (owapi.GetWeather owapi.cachedServer (owapi.okWorld 200)
          { Query := "sydney", MinReadTime := some 100 }).fetches = []
      ∧ (owapi.GetWeather owapi.cachedServer (owapi.okWorld 200)
          { Query := "sydney", MinReadTime := some 100 }).server = owapi.cachedServer)
    ∧ (wsapi.fastPath wsapi.cachedServer { Query := "sydney", MinReadTime := some 101 } = none
      ∧ (wsapi.GetCurrentWeather wsapi.cachedServer (wsapi.okWorld 200)
          { Query := "sydney", MinReadTime := some 101 }).fetches
        = [{ Query := "sydney", MinReadTime := some 101 }]) :=
  ⟨(C8_fast_path owapi.cachedServer (owapi.okWorld 200)
      { Query := "sydney", MinReadTime := some 100 }
      { ReadTime := some 100, Temp := 21, WindSpeed := 4 } 100
      wsapi.cachedServer (wsapi.okWorld 200) { Query := "sydney", MinReadTime := some 101 }
      { ReadTime := some 100, Temperature := 21, WindSpeed := 4 } 100
      rfl rfl (by decide) rfl rfl (by decide)).1 (Or.inr ⟨100, rfl, by decide, le_refl _⟩),
   (C8_fast_path owapi.cachedServer (owapi.okWorld 200)
      { Query := "sydney", MinReadTime := some 100 }
      { ReadTime := some 100, Temp := 21, WindSpeed := 4 } 100
      wsapi.cachedServer (wsapi.okWorld 200) { Query := "sydney", MinReadTime := some 101 }
      { ReadTime := some 100, Temperature := 21, WindSpeed := 4 } 100
      rfl rfl (by decide) rfl rfl (by decide)).2.2.2 101 rfl (by decide) (by decide)⟩

/-- Claim C9. Store on success only, for both providers and every key: when the
upstream fetch fails, the callback returns the error and leaves the server, so
the whole cache map, as it was; when it succeeds, the callback returns the
reading, the entry of the key is exactly the fetched reading, and the entry of
every other key is as before. A call that takes the slow path leaves the server
as the callback left it and, its context open, returns what the callback
returned. -/
theorem C9_store_on_success
    (xo : owapi.Server) (wo : owapi.World) (keyo : owapi.cacheKey)
    (reqo : openweather.GetWeatherRequest)
    (xs : wsapi.Server) (ws : wsapi.World) (keys : wsapi.cacheKey)
    (reqs : weatherstack.GetCurrentWeatherRequest) :
    (∀ e, owapi.getWeather xo wo reqo = Except.error e →
        owapi.exclusiveValue xo wo keyo reqo = (xo, Except.error e))
      ∧ (∀ res, owapi.getWeather xo wo reqo = Except.ok res →
        (owapi.exclusiveValue xo wo keyo reqo).2 = Except.ok res
          ∧ (owapi.exclusiveValue xo wo keyo reqo).1.cache keyo = some res
          ∧ ∀ k, k ≠ keyo → (owapi.exclusiveValue xo wo keyo reqo).1.cache k = xo.cache k)
      ∧ (owapi.fastPath xo reqo = none →
        (owapi.GetWeather xo wo reqo).server
            = (owapi.exclusiveValue xo wo (owapi.newCacheKey reqo) reqo).1
          ∧ (wo.ctxDone = none → (owapi.GetWeather xo wo reqo).out
            = (owapi.exclusiveValue xo wo (owapi.newCacheKey reqo) reqo).2))
      ∧ (∀ e, wsapi.getCurrentWeather xs ws reqs = Except.error e →
        wsapi.exclusiveValue xs ws keys reqs = (xs, Except.error e))
      ∧ (∀ res, wsapi.getCurrentWeather xs ws reqs = Except.ok res →
        (wsapi.exclusiveValue xs ws keys reqs).2 = Except.ok res
          ∧ (wsapi.exclusiveValue xs ws keys reqs).1.cache keys = some res
          ∧ ∀ k, k ≠ keys → (wsapi.exclusiveValue xs ws keys reqs).1.cache k = xs.cache k)
      ∧ (wsapi.fastPath xs reqs = none →
        (wsapi.GetCurrentWeather xs ws reqs).server
            = (wsapi.exclusiveValue xs ws (wsapi.newCacheKey reqs) reqs).1
          ∧ (ws.ctxDone = none → (wsapi.GetCurrentWeather xs ws reqs).out
            = (wsapi.exclusiveValue xs ws (wsapi.newCacheKey reqs) reqs).2)) := by
  refine ⟨fun e h => ?_, fun res h => ?_, fun h => ?_, fun e h => ?_, fun res h => ?_,
    fun h => ?_⟩
  · simp [owapi.exclusiveValue, h]
  · refine ⟨by simp [owapi.exclusiveValue, h], by simp [owapi.exclusiveValue, h], ?_⟩
    intro k hk
    simp [owapi.exclusiveValue, h, Function.update_noteq hk]
  · exact (owapi.GetWeather_slow xo wo reqo h).2
  · simp [wsapi.exclusiveValue, h]
  · refine ⟨by simp [wsapi.exclusiveValue, h], by simp [wsapi.exclusiveValue, h], ?_⟩
    intro k hk
    simp [wsapi.exclusiveValue, h, Function.update_noteq hk]
  · exact (wsapi.GetCurrentWeather_slow xs ws reqs h).2

/-- Witness of C9: with a reading cached for "sydney", an upstream answering 500
leaves the Openweather server as it was and the error is returned; an upstream
answering 200 at time 200 replaces the Weatherstack entry of "sydney" by the
fetched reading and leaves the entry of "perth" as it was (empty). -/
theorem C9_store_on_success_witness :
    owapi.exclusiveValue owapi.cachedServer (owapi.failWorld 200) { query := "sydney" }
        { Query := "sydney", MinReadTime := some 150 }
      = (owapi.cachedServer, Except.error (Error.plain "unexpected status code 500"))
    ∧ ((wsapi.exclusiveValue wsapi.cachedServer (wsapi.okWorld 200) { query := "sydney" }
        { Query := "sydney", MinReadTime := some 150 }).2
        = Except.ok { ReadTime := some 200, Temperature := 18, WindSpeed := 5 }
      ∧ (wsapi.exclusiveValue wsapi.cachedServer (wsapi.okWorld 200) { query := "sydney" }
        { Query := "sydney", MinReadTime := some 150 }).1.cache { query := "sydney" }
        = some { ReadTime := some 200, Temperature := 18, WindSpeed := 5 }
      ∧ ∀ k, k ≠ { query := "sydney" } →
        (wsapi.exclusiveValue wsapi.cachedServer (wsapi.okWorld 200) { query := "sydney" }
          { Query := "sydney", MinReadTime := some 150 }).1.cache k
        = wsapi.cachedServer.cache k) :=
  ⟨(C9_store_on_success owapi.cachedServer (owapi.failWorld 200) { query := "sydney" }
      { Query := "sydney", MinReadTime := some 150 }
      wsapi.cachedServer (wsapi.okWorld 200) { query := "sydney" }
      { Query := "sydney", MinReadTime := some 150 }).1
      (Error.plain "unexpected status code 500") rfl,
   (C9_store_on_success owapi.cachedServer (owapi.failWorld 200) { query := "sydney" }
      { Query := "sydney", MinReadTime := some 150 }
      wsapi.cachedServer (wsapi.okWorld 200) { query := "sydney" }
      { Query := "sydney", MinReadTime := some 150 }).2.2.2.2.1
      { ReadTime := some 200, Temperature := 18, WindSpeed := 5 } rfl⟩

/-- Claim C10, as stated, fails: with an empty cache, a request for "sydney"
with `MinReadTime` 100 and an upstream fetch that starts at time 50 and
succeeds, `GetWeather` returns, with a nil error, a reading whose read time is
50, before the `MinReadTime` asked for. -/
theorem C10_fetch_before_min_read_time :
    (owapi.GetWeather owapi.emptyServer (owapi.okWorld 50)
        { Query := "sydney", MinReadTime := some 100 }).out
      = Except.ok { ReadTime := some 50, Temp := 18, WindSpeed := 5 }
    ∧ (owapi.GetWeather owapi.emptyServer (owapi.okWorld 50)
        { Query := "sydney", MinReadTime := some 100 }).fetches
      = [{ Query := "sydney", MinReadTime := some 100 }]
    ∧ Time.Before 50 100 = true := by
  refine ⟨rfl, rfl, by decide⟩

/-- Claim C10, amended, for both providers: for a request with a valid
`MinReadTime` `m`, a reading returned with a nil error either comes from the
cache fast path (no fetch requested), and then, the cached read time being a
valid timestamp, its read time is not before `m`; or it is the result of the
upstream fetch, and then its read time is the clock value at the start of that
fetch, whatever `m` is. So its read time is not before `m` whenever `m` is not
later than that clock value. -/
theorem C10_read_time_bound
    (xo : owapi.Server) (wo : owapi.World) (reqo : openweather.GetWeatherRequest)
    (reso : openweather.Weather) (mo : Timestamp)
    (xs : wsapi.Server) (ws : wsapi.World) (reqs : weatherstack.GetCurrentWeatherRequest)
    (ress : weatherstack.CurrentWeather) (ms : Timestamp)
    (hMinO : reqo.MinReadTime = some mo) (hValidMinO : Timestamp.IsValid mo)
    (hValidCacheO : ∀ r t, xo.cache (owapi.newCacheKey reqo) = some r →
      r.ReadTime = some t → Timestamp.IsValid t)
    (hOkO : (owapi.GetWeather xo wo reqo).out = Except.ok reso)
    (hMinS : reqs.MinReadTime = some ms) (hValidMinS : Timestamp.IsValid ms)
    (hValidCacheS : ∀ r t, xs.cache (wsapi.newCacheKey reqs) = some r →
      r.ReadTime = some t → Timestamp.IsValid t)
    (hOkS : (wsapi.GetCurrentWeather xs ws reqs).out = Except.ok ress) :
    (((owapi.GetWeather xo wo reqo).fetches = []
          ∧ xo.cache (owapi.newCacheKey reqo) = some reso
          ∧ ∃ t, reso.ReadTime = some t ∧ mo ≤ t)
        ∨ ((owapi.GetWeather xo wo reqo).fetches = [reqo] ∧ reso.ReadTime = some wo.Now))
      ∧ (mo ≤ wo.Now → ∃ t, reso.ReadTime = some t ∧ mo ≤ t)
      ∧ (((wsapi.GetCurrentWeather xs ws reqs).fetches = []
          ∧ xs.cache (wsapi.newCacheKey reqs) = some ress
          ∧ ∃ t, ress.ReadTime = some t ∧ ms ≤ t)
        ∨ ((wsapi.GetCurrentWeather xs ws reqs).fetches = [reqs] ∧ ress.ReadTime = some ws.Now))
      ∧ (ms ≤ ws.Now → ∃ t, ress.ReadTime = some t ∧ ms ≤ t) := by
  have hO : ((owapi.GetWeather xo wo reqo).fetches = []
          ∧ xo.cache (owapi.newCacheKey reqo) = some reso
          ∧ ∃ t, reso.ReadTime = some t ∧ mo ≤ t)
        ∨ ((owapi.GetWeather xo wo reqo).fetches = [reqo] ∧ reso.ReadTime = some wo.Now) := by
    cases hFast : owapi.fastPath xo reqo with
    | some r =>
      have hr : r = reso := by
        simpa [owapi.GetWeather, hFast] using hOkO
      subst hr
      left
      have hC : xo.cache (owapi.newCacheKey reqo) = some r := by
        unfold owapi.fastPath at hFast
        cases hc : xo.cache (owapi.newCacheKey reqo) with
        | none => simp [hc] at hFast
        | some c =>
          simp only [hc] at hFast
          split at hFast
          · cases hFast
            rfl
          · split at hFast
            · cases hFast
            · split at hFast
              · cases hFast
                rfl
              · cases hFast
      exact ⟨by simp [owapi.GetWeather, hFast],
        owapi.fastPath_bound xo reqo r mo hMinO hValidMinO
          (fun t ht => hValidCacheO r t hC ht) hFast⟩
    | none =>
      right
      refine ⟨(owapi.GetWeather_slow xo wo reqo hFast).1, ?_⟩
      unfold owapi.GetWeather at hOkO
      simp only [hFast] at hOkO
      cases hCtx : wo.ctxDone with
      | some e => simp [hCtx] at hOkO
      | none =>
        simp only [hCtx] at hOkO
        unfold owapi.exclusiveValue at hOkO
        cases hGet : owapi.getWeather xo wo reqo with
        | error e => simp [hGet] at hOkO
        | ok r =>
          have hRead := owapi.getWeather_readTime xo wo reqo r hGet
          simp only [hGet] at hOkO
          cases hOkO
          exact hRead
  have hS : ((wsapi.GetCurrentWeather xs ws reqs).fetches = []
          ∧ xs.cache (wsapi.newCacheKey reqs) = some ress
          ∧ ∃ t, ress.ReadTime = some t ∧ ms ≤ t)
        ∨ ((wsapi.GetCurrentWeather xs ws reqs).fetches = [reqs]
          ∧ ress.ReadTime = some ws.Now) := by
    cases hFast : wsapi.fastPath xs reqs with
    | some r =>
      have hr : r = ress := by
        simpa [wsapi.GetCurrentWeather, hFast] using hOkS
      subst hr
      left
      have hC : xs.cache (wsapi.newCacheKey reqs) = some r := by
        unfold wsapi.fastPath at hFast
        cases hc : xs.cache (wsapi.newCacheKey reqs) with
        | none => simp [hc] at hFast
        | some c =>
          simp only [hc] at hFast
          split at hFast
          · cases hFast
            rfl
          · split at hFast
            · cases hFast
            · split at hFast
              · cases hFast
                rfl
              · cases hFast
      exact ⟨by simp [wsapi.GetCurrentWeather, hFast],
        wsapi.fastPath_bound_ws xs reqs r ms hMinS hValidMinS
          (fun t ht => hValidCacheS r t hC ht) hFast⟩
    | none =>
      right
      refine ⟨(wsapi.GetCurrentWeather_slow xs ws reqs hFast).1, ?_⟩
      unfold wsapi.GetCurrentWeather at hOkS
      simp only [hFast] at hOkS
      cases hCtx : ws.ctxDone with
      | some e => simp [hCtx] at hOkS
      | none =>
        simp only [hCtx] at hOkS
        unfold wsapi.exclusiveValue at hOkS
        cases hGet : wsapi.getCurrentWeather xs ws reqs with
        | error e => simp [hGet] at hOkS
        | ok r =>
          have hRead := wsapi.getCurrentWeather_readTime xs ws reqs r hGet
          simp only [hGet] at hOkS
          cases hOkS
          exact hRead
  refine ⟨hO, fun hle => ?_, hS, fun hle => ?_⟩
  · rcases hO with ⟨_, _, h⟩ | ⟨_, h⟩
    · exact h
    · exact ⟨wo.Now, h, hle⟩
  · rcases hS with ⟨_, _, h⟩ | ⟨_, h⟩
    · exact h
    · exact ⟨ws.Now, h, hle⟩

/-- Witness of C10 amended: Openweather serves a request with `MinReadTime` 100
from its cache (read time 100); Weatherstack, asked for `MinReadTime` 150 with
a cached read time of 100, fetches at time 200 and returns read time 200. -/
theorem C10_read_time_bound_witness :
    (((owapi.GetWeather owapi.cachedServer (owapi.okWorld 200)
            { Query := "sydney", MinReadTime := some 100 }).fetches = []
          ∧ owapi.cachedServer.cache
              (owapi.newCacheKey { Query := "sydney", MinReadTime := some 100 })
            = some { ReadTime := some 100, Temp := 21, WindSpeed := 4 }
          ∧ ∃ t, (some 100 : Option Time) = some t ∧ (100 : Time) ≤ t)
        ∨ ((owapi.GetWeather owapi.cachedServer (owapi.okWorld 200)
            { Query := "sydney", MinReadTime := some 100 }).fetches
            = [{ Query := "sydney", MinReadTime := some 100 }]
          ∧ (some 100 : Option Time) = some (owapi.okWorld 200).Now))
      ∧ ((100 : Time) ≤ (owapi.okWorld 200).Now →
          ∃ t, (some 100 : Option Time) = some t ∧ (100 : Time) ≤ t)
      ∧ (((wsapi.GetCurrentWeather wsapi.cachedServer (wsapi.okWorld 200)
            { Query := "sydney", MinReadTime := some 150 }).fetches = []
          ∧ wsapi.cachedServer.cache
              (wsapi.newCacheKey { Query := "sydney", MinReadTime := some 150 })
            = some { ReadTime := some 200, Temperature := 18, WindSpeed := 5 }
          ∧ ∃ t, (some 200 : Option Time) = some t ∧ (150 : Time) ≤ t)
        ∨ ((wsapi.GetCurrentWeather wsapi.cachedServer (wsapi.okWorld 200)
            { Query := "sydney", MinReadTime := some 150 }).fetches
            = [{ Query := "sydney", MinReadTime := some 150 }]
          ∧ (some 200 : Option Time) = some (wsapi.okWorld 200).Now))
      ∧ ((150 : Time) ≤ (wsapi.okWorld 200).Now →
          ∃ t, (some 200 : Option Time) = some t ∧ (150 : Time) ≤ t) :=
  C10_read_time_bound owapi.cachedServer (owapi.okWorld 200)
    { Query := "sydney", MinReadTime := some 100 }
    { ReadTime := some 100, Temp := 21, WindSpeed := 4 } 100
    wsapi.cachedServer (wsapi.okWorld 200) { Query := "sydney", MinReadTime := some 150 }
    { ReadTime := some 200, Temperature := 18, WindSpeed := 5 } 150
    rfl (by decide)
    (fun r t hc ht => by
      have hr : r = { ReadTime := some 100, Temp := 21, WindSpeed := 4 } :=
        (Option.some.inj hc).symm
      subst hr
      have hEq : (100 : Int) = t := Option.some.inj ht
      subst hEq
      decide)
    rfl
    rfl (by decide)
    (fun r t hc ht => by
      have hr : r = { ReadTime := some 100, Temperature := 21, WindSpeed := 4 } :=
        (Option.some.inj hc).symm
      subst hr
      have hEq : (100 : Int) = t := Option.some.inj ht
      subst hEq
      decide)
    rfl

/-! ## Readings without read time, and the handler -/

namespace weather

/-- A reply with a nil error and no read time is carried on as the error
`errMissingReadTime`. -/
theorem checkReadTime_missing (minReadTime : Time) :
    checkReadTime none none minReadTime = Checked.carry (some errMissingReadTime) := by
  simp [checkReadTime]

/-- The final switch looks at the two error variables only to see whether each
is nil: any two errors in the place of Openweather's give the same outcome. -/
theorem fallback_owErr (owRes owRes2 : Option openweather.Weather) (e1 e2 : Error)
    (wsRes : Option weatherstack.CurrentWeather) (wsErr : Option Error) :
    fallback owRes (some e1) wsRes wsErr = fallback owRes2 (some e2) wsRes wsErr := by
  cases wsErr <;> simp [fallback]

/-- Any two errors in the place of Weatherstack's give the same outcome. -/
theorem fallback_wsErr (owRes : Option openweather.Weather) (owErr : Option Error)
    (wsRes wsRes2 : Option weatherstack.CurrentWeather) (e1 e2 : Error) :
    fallback owRes owErr wsRes (some e1) = fallback owRes owErr wsRes2 (some e2) := by
  cases owErr <;> simp [fallback]

/-- Claim C11. A reading without read time counts as a failure of its provider:
for every `MaxAge`, clock and query, and every behaviour of the other provider,
`buildWeatherResponse` gives the same calls and the same outcome whether a
provider replies with a nil error and a reading whose `ReadTime` is nil, or
with an error. In particular, with `MaxAge > 0`, an Openweather reading without
read time followed by a Weatherstack error gives the Unavailable error, not the
Openweather values. -/
theorem C11_missing_read_time_is_failure (maxAge : Int) (now : Unit → Time) (query : String)
    (ow : openweather.Weather) (ws : weatherstack.CurrentWeather)
    (hOw : ow.ReadTime = none) (hWs : ws.ReadTime = none) :
    (∀ (r : Option openweather.Weather) (e : Error)
        (wsF : weatherstack.GetCurrentWeatherRequest → weatherstack.Reply),
        buildWeatherResponse (Server.mk maxAge now
            (fun _ => { res := some ow, err := none })
            wsF) query
          = buildWeatherResponse (Server.mk maxAge now
            (fun _ => { res := r, err := some e })
            wsF) query)
      ∧ (∀ (r : Option weatherstack.CurrentWeather) (e : Error)
        (owF : openweather.GetWeatherRequest → openweather.Reply),
        buildWeatherResponse (Server.mk maxAge now
            owF
            (fun _ => { res := some ws, err := none })) query
          = buildWeatherResponse (Server.mk maxAge now
            owF
            (fun _ => { res := r, err := some e })) query)
      ∧ (0 < maxAge → ∀ (r : Option weatherstack.CurrentWeather) (e : Error),
        (buildWeatherResponse (Server.mk maxAge now
            (fun _ => { res := some ow, err := none })
            (fun _ => { res := r, err := some e })) query).out
          = Outcome.error (Error.status codes.Unavailable "no weather providers available")) := by
  refine ⟨fun r e wsF => ?_, fun r e owF => ?_, fun hAge r e => ?_⟩
  · by_cases hAge : maxAge ≤ 0
    · simp [buildWeatherResponse, hAge]
    · simp only [buildWeatherResponse, hAge, if_false, openweather.GetReadTime, hOw,
        checkReadTime_missing, checkReadTime_err]
      cases checkReadTime (wsF { Query := query }).err
          (weatherstack.GetReadTime (wsF { Query := query }).res)
          (Time.Add (now ()) (-maxAge)) with
      | fresh => rfl
      | carry wsErr =>
        simp only []
        rw [fallback_owErr (some ow) r errMissingReadTime e]
  · by_cases hAge : maxAge ≤ 0
    · simp [buildWeatherResponse, hAge]
    · simp only [buildWeatherResponse, hAge, if_false, weatherstack.GetReadTime, hWs,
        checkReadTime_missing, checkReadTime_err]
      cases checkReadTime (owF { Query := query }).err
          (openweather.GetReadTime (owF { Query := query }).res)
          (Time.Add (now ()) (-maxAge)) with
      | fresh => rfl
      | carry owErr =>
        simp only []
        rw [fallback_wsErr (owF { Query := query }).res owErr (some ws) r errMissingReadTime e]
  · have hAge2 : ¬ maxAge ≤ 0 := not_le.mpr hAge
    simp [buildWeatherResponse, hAge2, openweather.GetReadTime, hOw, checkReadTime_missing,
      checkReadTime_err, fallback]

/-- Witness of C11: at clock 0 with `MaxAge` 3s, an Openweather reading without
read time followed by a Weatherstack error gives the Unavailable error. -/
theorem C11_missing_read_time_is_failure_witness :
    (buildWeatherResponse (testServer (owOk owNoReadTime) (wsFail "weatherstack error"))
        "sydney").out
      = Outcome.error (Error.status codes.Unavailable "no weather providers available") :=
  (C11_missing_read_time_is_failure 3000000000 (fun _ => 0) "sydney" owNoReadTime wsNoReadTime
    rfl rfl).2.2 (by decide) none (Error.plain "weatherstack error")

end weather

namespace weather

/-- Claim C12. Input validation: for every server and every request whose
`city` parameter is absent, or whose first `city` value is the empty string,
the handler `getWeather` writes HTTP status 400 with the content type
`application/json` and the body
`{"code":3,"message":"at least one query parameter required"}` (code 3 is
InvalidArgument), and calls no provider. -/
theorem C12_input_validation (x : Server) (params : Values)
    (hCity : params "city" = [] ∨ ∃ rest, params "city" = "" :: rest) :
    (getWeather x params).out = Handled.wrote
        { StatusCode := 400
          ContentType := "application/json"
          Body := Body.status
            "\x7b\"code\":3,\"message\":\"at least one query parameter required\"\x7d" }
      ∧ codes.InvalidArgument = 3
      ∧ (getWeather x params).calls = [] := by
  have hGet : Values.Get params "city" = "" := by
    rcases hCity with h | ⟨rest, h⟩ <;> simp [Values.Get, h]
  have hRun : getWeather x params =
      { calls := []
        out := Handled.wrote (writeError http.StatusBadRequest
          (Error.status codes.InvalidArgument "at least one query parameter required")) } := by
    simp [getWeather, hGet]
  rw [hRun]
  refine ⟨?_, rfl, rfl⟩
  decide

/-- Witness of C12: the test `no query params`, a request without parameters. -/
theorem C12_input_validation_witness :
    (getWeather (testServer (owFail "unused") (wsFail "unused")) noParams).out = Handled.wrote
        { StatusCode := 400
          ContentType := "application/json"
          Body := Body.status
            "\x7b\"code\":3,\"message\":\"at least one query parameter required\"\x7d" }
      ∧ codes.InvalidArgument = 3
      ∧ (getWeather (testServer (owFail "unused") (wsFail "unused")) noParams).calls = [] :=
  C12_input_validation (testServer (owFail "unused") (wsFail "unused")) noParams (Or.inl rfl)

/-- Claim C13. Error-to-status mapping: for every request whose `city` value is
not empty, the handler writes what `respond` makes of the result of
`buildWeatherResponse` on that value: HTTP 200 with the response for a success,
HTTP 503 for an error whose status code is Unavailable, HTTP 500 for an error
with any other status code, and in both error cases the JSON form of the
error's status as the body. When both providers fail (with `MaxAge > 0`) the
handler writes 503 with the body
`{"code":14,"message":"no weather providers available"}`. -/
theorem C13_error_to_status (x : Server) (params : Values)
    (hCity : Values.Get params "city" ≠ "") :
    (getWeather x params).out = respond (buildWeatherResponse x (Values.Get params "city")).out
      ∧ (∀ res, respond (Outcome.ok res) = Handled.wrote
          { StatusCode := 200, ContentType := "application/json", Body := Body.response res })
      ∧ (∀ err, (status.FromError err).Code = codes.Unavailable →
          respond (Outcome.error err) = Handled.wrote
            { StatusCode := 503, ContentType := "application/json"
              Body := Body.status (json.marshalStatus (status.FromError err)) })
      ∧ (∀ err, (status.FromError err).Code ≠ codes.Unavailable →
          respond (Outcome.error err) = Handled.wrote
            { StatusCode := 500, ContentType := "application/json"
              Body := Body.status (json.marshalStatus (status.FromError err)) })
      ∧ (0 < x.MaxAge →
          (∃ r e, x.Openweather { Query := Values.Get params "city" } = { res := r, err := some e }) →
          (∃ r e, x.Weatherstack { Query := Values.Get params "city" } = { res := r, err := some e }) →
          (getWeather x params).out = Handled.wrote
            { StatusCode := 503, ContentType := "application/json"
              Body := Body.status
                "\x7b\"code\":14,\"message\":\"no weather providers available\"\x7d" }) := by
  have hRun : (getWeather x params).out
      = respond (buildWeatherResponse x (Values.Get params "city")).out := by
    simp [getWeather, hCity]
  refine ⟨hRun, fun res => rfl, fun err h => ?_, fun err h => ?_, fun hAge hOw hWs => ?_⟩
  · simp [respond, h, writeError, writeProtoJSON, writeJSON, writeBytes,
      http.StatusServiceUnavailable]
  · simp [respond, h, writeError, writeProtoJSON, writeJSON, writeBytes,
      http.StatusInternalServerError]
  · obtain ⟨r1, e1, hOw⟩ := hOw
    obtain ⟨r2, e2, hWs⟩ := hWs
    have hAge2 : ¬ x.MaxAge ≤ 0 := not_le.mpr hAge
    have hOut : (buildWeatherResponse x (Values.Get params "city")).out
        = Outcome.error (Error.status codes.Unavailable "no weather providers available") := by
      simp [buildWeatherResponse, hAge2, hOw, hWs, checkReadTime_err, fallback]
    rw [hRun, hOut]
    decide

/-- Witness of C13: the test `both error`. -/
theorem C13_error_to_status_witness :
    (getWeather (testServer (owFail "openweather error") (wsFail "weatherstack error"))
        (cityParams "sydney")).out = Handled.wrote
      { StatusCode := 503, ContentType := "application/json"
        Body := Body.status
          "\x7b\"code\":14,\"message\":\"no weather providers available\"\x7d" } :=
  (C13_error_to_status (testServer (owFail "openweather error") (wsFail "weatherstack error"))
    (cityParams "sydney") (by decide)).2.2.2.2 (by decide)
    ⟨none, Error.plain "openweather error", rfl⟩ ⟨none, Error.plain "weatherstack error", rfl⟩

/-- Claim C16. Every error that `buildWeatherResponse` returns is the status
error of code Unavailable, and it returns one only when neither provider gave,
with a nil error, a reading that has a read time. So `respond` never takes the
HTTP 500 branch on a result of `buildWeatherResponse`, and with `MaxAge > 0`
the handler always writes a response, whose status is 200, 400 or 503. -/
theorem C16_status_codes (x : Server) (params : Values) (hAge : 0 < x.MaxAge) :
    (∀ query err, (buildWeatherResponse x query).out = Outcome.error err →
        err = Error.status codes.Unavailable "no weather providers available"
          ∧ (status.FromError err).Code = codes.Unavailable
          ∧ ¬ ((x.Openweather { Query := query }).err = none
              ∧ ∃ t, openweather.GetReadTime (x.Openweather { Query := query }).res = some t)
          ∧ ¬ ((x.Weatherstack { Query := query }).err = none
              ∧ ∃ t, weatherstack.GetReadTime (x.Weatherstack { Query := query }).res = some t))
      ∧ (∀ query res, respond (buildWeatherResponse x query).out = Handled.wrote res →
          res.StatusCode ≠ 500)
      ∧ (∃ res, (getWeather x params).out = Handled.wrote res
          ∧ (res.StatusCode = 200 ∨ res.StatusCode = 400 ∨ res.StatusCode = 503)) := by
  have hAge2 : ¬ x.MaxAge ≤ 0 := not_le.mpr hAge
  have hErr : ∀ query err, (buildWeatherResponse x query).out = Outcome.error err →
      err = Error.status codes.Unavailable "no weather providers available"
        ∧ ¬ ((x.Openweather { Query := query }).err = none
            ∧ ∃ t, openweather.GetReadTime (x.Openweather { Query := query }).res = some t)
        ∧ ¬ ((x.Weatherstack { Query := query }).err = none
            ∧ ∃ t, weatherstack.GetReadTime (x.Weatherstack { Query := query }).res = some t) := by
    intro query err h
    unfold buildWeatherResponse at h
    simp only [hAge2, if_false] at h
    generalize x.Openweather { Query := query } = ow at h ⊢
    generalize x.Weatherstack { Query := query } = ws at h ⊢
    obtain ⟨owRes, owErr⟩ := ow
    obtain ⟨wsRes, wsErr⟩ := ws
    cases owErr with
    | some e1 =>
      cases wsErr with
      | some e2 =>
        simp [checkReadTime, fallback] at h
        simp [h]
      | none =>
        cases hT : weatherstack.GetReadTime wsRes with
        | none =>
          simp [checkReadTime, fallback, hT] at h
          simp [h]
        | some t =>
          cases hB : Time.Before (AsTime (some t)) (Time.Add (x.TimeNow ()) (-x.MaxAge)) with
          | true => simp [checkReadTime, fallback, hT, hB] at h
          | false => simp [checkReadTime, fallback, hT, hB] at h
    | none =>
      cases hT1 : openweather.GetReadTime owRes with
      | some t1 =>
        cases hB1 : Time.Before (AsTime (some t1)) (Time.Add (x.TimeNow ()) (-x.MaxAge)) with
        | true =>
          cases wsErr with
          | some e2 => simp [checkReadTime, fallback, hT1, hB1] at h
          | none =>
            cases hT : weatherstack.GetReadTime wsRes with
            | none => simp [checkReadTime, fallback, hT1, hT, hB1] at h
            | some t =>
              cases hB : Time.Before (AsTime (some t))
                  (Time.Add (x.TimeNow ()) (-x.MaxAge)) with
              | true =>
                simp only [checkReadTime, fallback, hT1, hT, hB1, hB] at h
                simp at h
                split at h <;> cases h
              | false => simp [checkReadTime, fallback, hT1, hT, hB1, hB] at h
        | false => simp [checkReadTime, hT1, hB1] at h
      | none =>
        cases wsErr with
        | some e2 =>
          simp [checkReadTime, fallback, hT1] at h
          simp [h]
        | none =>
          cases hT : weatherstack.GetReadTime wsRes with
          | none =>
            simp [checkReadTime, fallback, hT1, hT] at h
            simp [h]
          | some t =>
            cases hB : Time.Before (AsTime (some t)) (Time.Add (x.TimeNow ()) (-x.MaxAge)) with
            | true => simp [checkReadTime, fallback, hT1, hT, hB] at h
            | false => simp [checkReadTime, fallback, hT1, hT, hB] at h
  have hPanic : ∀ query m, (buildWeatherResponse x query).out ≠ Outcome.panicked m := by
    intro query m h
    unfold buildWeatherResponse at h
    simp only [hAge2, if_false] at h
    split at h
    · cases h
    · split at h
      · cases h
      · simp only [fallback] at h
        split at h
        · split at h <;> cases h
        · cases h
        · cases h
        · cases h
  have hResp : ∀ query, ∃ res, respond (buildWeatherResponse x query).out = Handled.wrote res
      ∧ (res.StatusCode = 200 ∨ res.StatusCode = 503) := by
    intro query
    cases hOut : (buildWeatherResponse x query).out with
    | panicked m => exact absurd hOut (hPanic query m)
    | ok r => exact ⟨_, rfl, Or.inl rfl⟩
    | error err =>
      have hE := (hErr query err hOut).1
      subst hE
      exact ⟨_, rfl, Or.inr rfl⟩
  refine ⟨fun query err h => ?_, fun query res h => ?_, ?_⟩
  · obtain ⟨h1, h2, h3⟩ := hErr query err h
    refine ⟨h1, ?_, h2, h3⟩
    rw [h1]
    rfl
  · obtain ⟨res2, h1, h2⟩ := hResp query
    rw [h1] at h
    cases h
    rcases h2 with h2 | h2 <;> simp [h2]
  · by_cases hCity : Values.Get params "city" = ""
    · refine ⟨writeError http.StatusBadRequest
        (Error.status codes.InvalidArgument "at least one query parameter required"),
        ?_, Or.inr (Or.inl rfl)⟩
      simp [getWeather, hCity]
    · obtain ⟨res, h1, h2⟩ := hResp (Values.Get params "city")
      refine ⟨res, ?_, ?_⟩
      · simp only [getWeather, hCity, if_false]
        exact h1
      · rcases h2 with h2 | h2
        · exact Or.inl h2
        · exact Or.inr (Or.inr h2)

/-- Witness of C16: the test `both error`; the handler writes status 503. -/
theorem C16_status_codes_witness :
    ∃ res, (getWeather (testServer (owFail "openweather error") (wsFail "weatherstack error"))
        (cityParams "sydney")).out = Handled.wrote res
      ∧ (res.StatusCode = 200 ∨ res.StatusCode = 400 ∨ res.StatusCode = 503) :=
  (C16_status_codes (testServer (owFail "openweather error") (wsFail "weatherstack error"))
    (cityParams "sydney") (by decide)).2.2

end weather

/-! ## The upstream fetch -/

namespace owapi

/-- The fetch `getWeather` as a function of what `http.DefaultClient.Do` gives
for the request URL. -/
theorem getWeather_eq (x : Server) (w : World) (request : openweather.GetWeatherRequest) :
    getWeather x w request =
      match w.Do (requestURL x w request) with
      | Except.error err => Except.error err
      | Except.ok res =>
        if res.StatusCode ≠ 200 then
          Except.error (Error.plain ("unexpected status code " ++ toString res.StatusCode))
        else
          match res.Decode with
          | Except.error err => Except.error err
          | Except.ok body =>
            match body.Temp with
            | none => Except.error (Error.plain "missing \"main.temp\"")
            | some temp =>
              match body.Speed with
              | none => Except.error (Error.plain "missing \"wind.speed\"")
              | some speed =>
                Except.ok { ReadTime := some w.Now, Temp := temp, WindSpeed := speed } := rfl

end owapi

namespace wsapi

/-- The fetch `getCurrentWeather` as a function of what `http.DefaultClient.Do`
gives for the request URL. -/
theorem getCurrentWeather_eq (x : Server) (w : World)
    (request : weatherstack.GetCurrentWeatherRequest) :
    getCurrentWeather x w request =
      match w.Do (requestURL x w request) with
      | Except.error err => Except.error err
      | Except.ok res =>
        if res.StatusCode ≠ 200 then
          Except.error (Error.plain ("unexpected status code " ++ toString res.StatusCode))
        else
          match res.Decode with
          | Except.error err => Except.error err
          | Except.ok body =>
            match body.Temperature with
            | none => Except.error (Error.plain "missing \"current.temperature\"")
            | some temperature =>
              match body.WindSpeed with
              | none => Except.error (Error.plain "missing \"current.wind_speed\"")
              | some windSpeed =>
                Except.ok { ReadTime := some w.Now, Temperature := temperature,
                            WindSpeed := windSpeed } := rfl

end wsapi

/-- Claim C15. Fetch error conditions, for both providers: given the upstream
response to the request URL, the fetch returns an error and no reading when the
status is not 200, when the body does not decode, and when the decoded payload
lacks the temperature or the wind speed; otherwise (status 200, body decoded,
both fields present) it returns the reading whose temperature and wind speed
are the decoded ones and whose `ReadTime` is set, to the clock value taken
before the request was sent. When the request itself fails, that error is
returned. -/
theorem C15_fetch_outcomes
    (xo : owapi.Server) (wo : owapi.World) (reqo : openweather.GetWeatherRequest)
    (xs : wsapi.Server) (ws : wsapi.World) (reqs : weatherstack.GetCurrentWeatherRequest) :
    (∀ res, wo.Do (owapi.requestURL xo wo reqo) = Except.ok res →
        (res.StatusCode ≠ 200 → ∃ e, owapi.getWeather xo wo reqo = Except.error e)
          ∧ (∀ e, res.Decode = Except.error e → ∃ e2, owapi.getWeather xo wo reqo = Except.error e2)
          ∧ (∀ body, res.Decode = Except.ok body → body.Temp = none ∨ body.Speed = none →
              ∃ e, owapi.getWeather xo wo reqo = Except.error e)
          ∧ (∀ body temp speed, res.StatusCode = 200 → res.Decode = Except.ok body →
              body.Temp = some temp → body.Speed = some speed →
              owapi.getWeather xo wo reqo
                = Except.ok { ReadTime := some wo.Now, Temp := temp, WindSpeed := speed }))
      ∧ (∀ e, wo.Do (owapi.requestURL xo wo reqo) = Except.error e →
          owapi.getWeather xo wo reqo = Except.error e)
      ∧ (∀ res, ws.Do (wsapi.requestURL xs ws reqs) = Except.ok res →
        (res.StatusCode ≠ 200 → ∃ e, wsapi.getCurrentWeather xs ws reqs = Except.error e)
          ∧ (∀ e, res.Decode = Except.error e →
              ∃ e2, wsapi.getCurrentWeather xs ws reqs = Except.error e2)
          ∧ (∀ body, res.Decode = Except.ok body →
              body.Temperature = none ∨ body.WindSpeed = none →
              ∃ e, wsapi.getCurrentWeather xs ws reqs = Except.error e)
          ∧ (∀ body temperature windSpeed, res.StatusCode = 200 → res.Decode = Except.ok body →
              body.Temperature = some temperature → body.WindSpeed = some windSpeed →
              wsapi.getCurrentWeather xs ws reqs
                = Except.ok { ReadTime := some ws.Now, Temperature := temperature,
                              WindSpeed := windSpeed }))
      ∧ (∀ e, ws.Do (wsapi.requestURL xs ws reqs) = Except.error e →
          wsapi.getCurrentWeather xs ws reqs = Except.error e) := by
  refine ⟨fun res hDo => ⟨fun hS => ?_, fun e hD => ?_, fun body hD hM => ?_,
      fun body temp speed hS hD hT hW => ?_⟩, fun e hDo => ?_,
    fun res hDo => ⟨fun hS => ?_, fun e hD => ?_, fun body hD hM => ?_,
      fun body temp speed hS hD hT hW => ?_⟩, fun e hDo => ?_⟩
  · exact ⟨_, by rw [owapi.getWeather_eq, hDo]; simp only [hS, if_true, ne_eq, not_false_eq_true]; rfl⟩
  · by_cases hS : res.StatusCode = 200
    · exact ⟨e, by rw [owapi.getWeather_eq, hDo]; simp [hS, hD]⟩
    · exact ⟨_, by rw [owapi.getWeather_eq, hDo]; simp only [hS, if_true, ne_eq, not_false_eq_true]; rfl⟩
  · by_cases hS : res.StatusCode = 200
    · cases hT : body.Temp with
      | none => exact ⟨_, by rw [owapi.getWeather_eq, hDo]; simp [hS, hD, hT]; rfl⟩
      | some temp =>
        have hW : body.Speed = none := by
          rcases hM with h | h
          · rw [hT] at h
            cases h
          · exact h
        exact ⟨_, by rw [owapi.getWeather_eq, hDo]; simp [hS, hD, hT, hW]; rfl⟩
    · exact ⟨_, by rw [owapi.getWeather_eq, hDo]; simp only [hS, if_true, ne_eq, not_false_eq_true]; rfl⟩
  · rw [owapi.getWeather_eq, hDo]
    simp [hS, hD, hT, hW]
  · rw [owapi.getWeather_eq, hDo]
  · exact ⟨_, by rw [wsapi.getCurrentWeather_eq, hDo]; simp only [hS, if_true, ne_eq, not_false_eq_true]; rfl⟩
  · by_cases hS : res.StatusCode = 200
    · exact ⟨e, by rw [wsapi.getCurrentWeather_eq, hDo]; simp [hS, hD]⟩
    · exact ⟨_, by rw [wsapi.getCurrentWeather_eq, hDo]; simp only [hS, if_true, ne_eq, not_false_eq_true]; rfl⟩
  · by_cases hS : res.StatusCode = 200
    · cases hT : body.Temperature with
      | none => exact ⟨_, by rw [wsapi.getCurrentWeather_eq, hDo]; simp [hS, hD, hT]; rfl⟩
      | some temp =>
        have hW : body.WindSpeed = none := by
          rcases hM with h | h
          · rw [hT] at h
            cases h
          · exact h
        exact ⟨_, by rw [wsapi.getCurrentWeather_eq, hDo]; simp [hS, hD, hT, hW]; rfl⟩
    · exact ⟨_, by rw [wsapi.getCurrentWeather_eq, hDo]; simp only [hS, if_true, ne_eq, not_false_eq_true]; rfl⟩
  · rw [wsapi.getCurrentWeather_eq, hDo]
    simp [hS, hD, hT, hW]
  · rw [wsapi.getCurrentWeather_eq, hDo]

/-- Witness of C15: an Openweather response with status 200 and a payload
without `wind.speed` gives an error; a Weatherstack response with status 200,
temperature 18 and wind speed 5, fetched at clock 7, gives that reading with
read time 7. -/
theorem C15_fetch_outcomes_witness :
    (∃ e, owapi.getWeather owapi.emptyServer
        (owapi.worldOf 7 (Except.ok { StatusCode := 200
                                      Decode := Except.ok { Temp := some 18, Speed := none } }))
        { Query := "sydney" } = Except.error e)
      ∧ wsapi.getCurrentWeather wsapi.emptyServer
          (wsapi.worldOf 7 (Except.ok
            { StatusCode := 200
              Decode := Except.ok { Temperature := some 18, WindSpeed := some 5 } }))
          { Query := "sydney" }
        = Except.ok { ReadTime := some 7, Temperature := 18, WindSpeed := 5 } :=
  ⟨((C15_fetch_outcomes owapi.emptyServer
        (owapi.worldOf 7 (Except.ok { StatusCode := 200
                                      Decode := Except.ok { Temp := some 18, Speed := none } }))
        { Query := "sydney" }
        wsapi.emptyServer
        (wsapi.worldOf 7 (Except.ok
          { StatusCode := 200
            Decode := Except.ok { Temperature := some 18, WindSpeed := some 5 } }))
        { Query := "sydney" }).1
      { StatusCode := 200, Decode := Except.ok { Temp := some 18, Speed := none } } rfl).2.2.1
      { Temp := some 18, Speed := none } rfl (Or.inr rfl),
   ((C15_fetch_outcomes owapi.emptyServer
        (owapi.worldOf 7 (Except.ok { StatusCode := 200
                                      Decode := Except.ok { Temp := some 18, Speed := none } }))
        { Query := "sydney" }
        wsapi.emptyServer
        (wsapi.worldOf 7 (Except.ok
          { StatusCode := 200
            Decode := Except.ok { Temperature := some 18, WindSpeed := some 5 } }))
        { Query := "sydney" }).2.2.1
      { StatusCode := 200, Decode := Except.ok { Temperature := some 18, WindSpeed := some 5 } }
      rfl).2.2.2
      { Temperature := some 18, WindSpeed := some 5 } 18 5 rfl rfl rfl rfl⟩

/-! ## Timestamps outside the valid range -/

/-- Outside the valid range `AsTime` wraps: the timestamp with `Seconds`
9223372036854775807 reads as a time before year 1, so at clock 0 with `MaxAge`
3s the aggregator finds that Openweather reading stale and calls Weatherstack,
and the fast path of the cache takes it, as a `MinReadTime`, to be before a
reading read at 100. -/
theorem far_future_timestamp_wraps :
    Time.Before (AsTime (some 9223372036854775807000000000)) 0 = true
      ∧ (weather.buildWeatherResponse
          (weather.testServer (weather.owOk weather.owFarFuture) (weather.wsFail "weatherstack error"))
          "sydney").calls
        = [weather.Call.openweather { Query := "sydney" },
           weather.Call.weatherstack { Query := "sydney" }]
      ∧ owapi.fastPath owapi.cachedServer
          { Query := "sydney", MinReadTime := some 9223372036854775807000000000 }
        = some { ReadTime := some 100, Temp := 21, WindSpeed := 4 } := by
  refine ⟨by decide, by decide, by rfl⟩

/-- At the lower end of the `int64` seconds `Add` saturates: one second before
the earliest second gives the second `-maxInt64`; in the valid range of
timestamps it is the exact sum. -/
theorem Add_saturates :
    Time.Add ((minInt64 - unixToInternal) * 1000000000) (-1000000000)
        = (-maxInt64 - unixToInternal) * 1000000000
      ∧ Time.Add 0 (-3000000000) = -3000000000 := by
  decide
